import Mathlib

/-!
# SnoreNotify: the private core (`src/libsnore/snore_p.cpp`)

A shallow embedding of `SnoreCorePrivate`: backend selection
(`setBackendIfAvailible`, `initPrimaryNotificationBackend`), settings
synchronisation (`syncSettings`), event forwarding
(`notificationActionInvoked`, `slotNotificationClosed`) and shutdown
(`slotAboutToQuit`).

Plugin objects live in a heap addressed by natural numbers (the C++ pointers).
Every call that leaves the core (initialize, deinitialize, load, setValue, a
signal, a callback on a notification source) is appended to a chronological
trace, so that "called exactly once", "first" and "not attempted" are
statements about that trace.  A null pointer is `none`; dereferencing it makes
the embedded function return `none`.
-/

namespace Snore

/-- The plugin categories of `SnorePlugin::PluginTypes` that the file names. -/
inductive PluginTypes where
  | BACKEND
  | SECONDARY_BACKEND
  | FRONTEND
  | PLUGIN
  deriving DecidableEq, Repr

/-- Modelled from the spec: `PluginContainer` and the `SnorePlugin` it owns are
not part of the source file; the spec names their narrow interface
(initialize/deinitialize, load, value).  A container has a category and a name
(the key of the plugin cache, which is also what `name()` of its plugin
returns), knows whether it is loaded, and its plugin knows whether it is
initialized, what its persisted local setting "Enabled" is and, for a backend,
what `canUpdateNotification()` answers.  `initOk` is the
environment: `initOk k` is the result of the `k`-th future call of
`initialize()` on this plugin (line 85 of the source shows the call can
fail). -/
structure PluginContainer where
  type : PluginTypes
  name : String
  isLoaded : Bool
  isInitialized : Bool
  enabled : Bool
  canUpdateNotification : Bool
  initOk : Nat → Bool

instance : Inhabited PluginContainer :=
  ⟨⟨PluginTypes.PLUGIN, "", false, false, false, false, fun _ => false⟩⟩

/-- A notification, as far as the forwarding layer looks at it: an identifier
and `data()->source()`, a pointer to the originating plugin or null. -/
structure Notification where
  id : Nat
  source : Option Nat
  deriving DecidableEq, Repr

/-- Calls that leave `SnoreCorePrivate`, in the order they are made.
`returned` is a ghost record: `setBackendIfAvailible name` returned `result`. -/
inductive Event where
  | initializeCalled (plugin : Nat) (result : Bool)
  | deinitializeCalled (plugin : Nat)
  | loadCalled (container : Nat)
  | setValueCalled (key : String) (value : String)
  | actionInvokedSignal (n : Notification)
  | sourceActionInvoked (source : Nat) (n : Notification)
  | notificationClosedSignal (n : Notification)
  | sourceNotificationClosed (source : Nat) (n : Notification)
  | returned (name : String) (result : Bool)
  deriving DecidableEq, Repr

/-- The state `SnoreCorePrivate` works on: its members `m_pluginNames`,
`m_plugins` and `m_notificationBackend`, and the collaborators it reaches: the
plugin objects (`objects`, the heap), the static plugin cache of
`PluginContainer` (`pluginCache`, the pointers of the cached containers in
iteration order), the local settings store and the trace of outgoing calls. -/
structure SnoreCorePrivate where
  objects : Nat → PluginContainer
  pluginCache : List Nat
  m_pluginNames : PluginTypes → List String
  m_plugins : List (String × Nat)
  m_notificationBackend : Option Nat
  localSettings : String → String
  trace : List Event

/-- The target platform of the build (`Q_OS_WIN`, `Q_OS_LINUX`, `Q_OS_MAC`, or
none of them); on Windows with `QSysInfo::windowsVersion()`. -/
inductive TargetOS where
  | windows (windowsVersion : Nat)
  | linux
  | mac
  | other
  deriving DecidableEq, Repr

/-- The value of `QSysInfo::WV_WINDOWS8` in Qt. -/
def WV_WINDOWS8 : Nat := 0x00a0

/-- Append one outgoing call to the trace. -/
def record (e : Event) (d : SnoreCorePrivate) : SnoreCorePrivate :=
  { d with trace := d.trace ++ [e] }

/-- Replace the plugin object at pointer `p`. -/
def setObject (p : Nat) (c : PluginContainer) (d : SnoreCorePrivate) : SnoreCorePrivate :=
  { d with objects := fun i => if i = p then c else d.objects i }

/-- Modelled from the spec: `SnorePlugin::initialize()` is not part of the
source file.  It asks the environment; on success the plugin is initialized
and the call returns true, on failure the plugin stays as it was and the call
returns false. -/
def initializePlugin (p : Nat) (d : SnoreCorePrivate) : Bool × SnoreCorePrivate :=
  let c := d.objects p
  let ok := c.initOk 0
  (ok, record (Event.initializeCalled p ok)
    (setObject p { c with isInitialized := c.isInitialized || ok,
                          initOk := fun k => c.initOk (k + 1) } d))

/-- Modelled from the spec: `SnorePlugin::deinitialize()` is not part of the
source file.  Afterwards the plugin is not initialized. -/
def deinitializePlugin (p : Nat) (d : SnoreCorePrivate) : SnoreCorePrivate :=
  record (Event.deinitializeCalled p) (setObject p { d.objects p with isInitialized := false } d)

/-- Modelled from the spec: `PluginContainer::load()` is not part of the source
file.  It loads the plugin of the container if needed and returns it; the
plugin is addressed by the pointer of its container. -/
def load (p : Nat) (d : SnoreCorePrivate) : SnoreCorePrivate :=
  record (Event.loadCalled p) (setObject p { d.objects p with isLoaded := true } d)

/-- Modelled from the spec: `SnoreCore::value(key, LOCAL_SETTING).toString()`
is not part of the source file; it reads the persisted local setting. -/
def value (key : String) (d : SnoreCorePrivate) : String :=
  d.localSettings key

/-- Modelled from the spec: `SnoreCore::setValue(key, value, LOCAL_SETTING)`
is not part of the source file; it persists the local setting. -/
def setValue (key val : String) (d : SnoreCorePrivate) : SnoreCorePrivate :=
  record (Event.setValueCalled key val)
    { d with localSettings := fun k => if k = key then val else d.localSettings k }

/-- Modelled from the spec: `SnoreCore::primaryNotificationBackend()` is not
part of the source file.  It is the name of the single active primary backend;
without an active backend there is no such name, and it equals no candidate. -/
def primaryNotificationBackend (d : SnoreCorePrivate) : Option String :=
  d.m_notificationBackend.map fun b => (d.objects b).name

/-- The lookup `PluginContainer::pluginCache(type).value(name)`: the cached
container of that category under that key, `none` when the key is not
contained. -/
def pluginCacheValue (t : PluginTypes) (name : String) (d : SnoreCorePrivate) : Option Nat :=
  d.pluginCache.find? fun p => decide ((d.objects p).type = t) && decide ((d.objects p).name = name)

/-- Lines 84-89 of `setBackendIfAvailible`: initialize the backend unless it
is initialized already; the answer is false when `initialize()` failed. -/
def ensureInitialized (b : Nat) (d : SnoreCorePrivate) : Bool × SnoreCorePrivate :=
  if (d.objects b).isInitialized then (true, d) else initializePlugin b d

/-- Lines 90-95 of `setBackendIfAvailible`: deinitialize the active backend if
there is one, make `b` the primary backend and persist its name. -/
def installBackend (b : Nat) (backend : String) (d : SnoreCorePrivate) : SnoreCorePrivate :=
  let d1 := match d.m_notificationBackend with
    | some old => deinitializePlugin old d
    | none => d
  setValue "PrimaryBackend" backend { d1 with m_notificationBackend := some b }

/-- The body of `SnoreCorePrivate::setBackendIfAvailible` (lines 70-99). -/
def setBackendIfAvailibleBody (backend : String) (d : SnoreCorePrivate) :
    Bool × SnoreCorePrivate :=
  if backend ∈ d.m_pluginNames PluginTypes.BACKEND then
    if primaryNotificationBackend d = some backend then
      (true, d)
    else
      match pluginCacheValue PluginTypes.BACKEND backend d with
      | none => (false, d)
      | some b =>
        let r := ensureInitialized b (load b d)
        if r.1 then
          (true, installBackend b backend r.2)
        else
          (false, r.2)
  else
    (false, d)

/-- The function `SnoreCorePrivate::setBackendIfAvailible`: the body, followed
by the ghost record of the value it returned. -/
def setBackendIfAvailible (backend : String) (d : SnoreCorePrivate) :
    Bool × SnoreCorePrivate :=
  let r := setBackendIfAvailibleBody backend d
  (r.1, record (Event.returned backend r.1) r.2)

/-- The function `SnoreCorePrivate::initPrimaryNotificationBackend` (lines
101-134), with the preprocessor branches selected by the platform. -/
def initPrimaryNotificationBackend (os : TargetOS) (d : SnoreCorePrivate) :
    Bool × SnoreCorePrivate :=
  let r0 := setBackendIfAvailible (value "PrimaryBackend" d) d
  if r0.1 then (true, r0.2) else
  let tail := fun (d : SnoreCorePrivate) =>
    let r := setBackendIfAvailible "Snore" d
    if r.1 then (true, r.2) else (false, r.2)
  match os with
  | TargetOS.windows v =>
    let r1 := if WV_WINDOWS8 ≤ v then setBackendIfAvailible "Windows 8" r0.2 else (false, r0.2)
    if r1.1 then (true, r1.2) else
    let r2 := setBackendIfAvailible "Growl" r1.2
    if r2.1 then (true, r2.2) else
    let r3 := setBackendIfAvailible "Snarl" r2.2
    if r3.1 then (true, r3.2) else
    tail r3.2
  | TargetOS.linux =>
    let r1 := setBackendIfAvailible "FreedesktopNotification" r0.2
    if r1.1 then (true, r1.2) else
    tail r1.2
  | TargetOS.mac =>
    let r1 := setBackendIfAvailible "OSX Notification Center" r0.2
    if r1.1 then (true, r1.2) else
    let r2 := setBackendIfAvailible "Growl" r1.2
    if r2.1 then (true, r2.2) else
    tail r2.2
  | TargetOS.other => tail r0.2

/-- The lambda `syncPluginStatus` of `syncSettings` (lines 154-162).
`m_plugins.value(pluginName)` is null for a name that is not a key, and the
next line dereferences it. -/
def syncPluginStatus (pluginName : String) (d : SnoreCorePrivate) : Option SnoreCorePrivate :=
  match d.m_plugins.lookup pluginName with
  | none => none
  | some plugin =>
    let enable := (d.objects plugin).enabled
    if !(d.objects plugin).isInitialized && enable then
      some (initializePlugin plugin d).2
    else if (d.objects plugin).isInitialized && !enable then
      some (deinitializePlugin plugin d)
    else
      some d

/-- One range-for loop of `syncSettings` over a list of plugin names. -/
def syncEach : List String → SnoreCorePrivate → Option SnoreCorePrivate
  | [], d => some d
  | pluginName :: rest, d =>
    match syncPluginStatus pluginName d with
    | none => none
    | some d1 => syncEach rest d1

/-- The three loops of `syncSettings` (lines 164-172). -/
def syncPlugins (d : SnoreCorePrivate) : Option SnoreCorePrivate :=
  match syncEach (d.m_pluginNames PluginTypes.SECONDARY_BACKEND) d with
  | none => none
  | some d1 =>
    match syncEach (d1.m_pluginNames PluginTypes.FRONTEND) d1 with
    | none => none
    | some d2 => syncEach (d2.m_pluginNames PluginTypes.PLUGIN) d2

/-- Lines 147-148 of `syncSettings`: the primary backend is deinitialized and
the reference cleared. -/
def tornDown (old : Nat) (d : SnoreCorePrivate) : SnoreCorePrivate :=
  { deinitializePlugin old d with m_notificationBackend := none }

/-- Lines 146-152 of `syncSettings`: tear the primary backend down and select
it again.  `m_notificationBackend` is dereferenced without a check. -/
def reselectBackend (d : SnoreCorePrivate) : Option SnoreCorePrivate :=
  match d.m_notificationBackend with
  | none => none
  | some b =>
    let oldBackend := (d.objects b).name
    let d1 := tornDown b d
    let r := setBackendIfAvailible (value "PrimaryBackend" d1) d1
    if !r.1 then
      some (setBackendIfAvailible oldBackend r.2).2
    else
      some r.2

/-- The function `SnoreCorePrivate::syncSettings` (lines 143-173). -/
def syncSettings (d : SnoreCorePrivate) : Option SnoreCorePrivate :=
  match reselectBackend d with
  | none => none
  | some d1 => syncPlugins d1

/-- The function `SnoreCorePrivate::primaryBackendCanUpdateNotification` (lines 211-214):
`m_notificationBackend` is dereferenced without a check. -/
def primaryBackendCanUpdateNotification (d : SnoreCorePrivate) : Option Bool :=
  match d.m_notificationBackend with
  | none => none
  | some b => some (d.objects b).canUpdateNotification

/-- The function `SnoreCorePrivate::notificationActionInvoked` (lines 61-68). -/
def notificationActionInvoked (notification : Notification) (d : SnoreCorePrivate) :
    SnoreCorePrivate :=
  let d1 := record (Event.actionInvokedSignal notification) d
  match notification.source with
  | some source => record (Event.sourceActionInvoked source notification) d1
  | none => d1

/-- The function `SnoreCorePrivate::slotNotificationClosed` (lines 216-223). -/
def slotNotificationClosed (n : Notification) (d : SnoreCorePrivate) : SnoreCorePrivate :=
  let d1 := record (Event.notificationClosedSignal n) d
  match n.source with
  | some source => record (Event.sourceNotificationClosed source n) d1
  | none => d1

/-- The loop body of `slotAboutToQuit` for one cached container. -/
def quitStep (d : SnoreCorePrivate) (p : Nat) : SnoreCorePrivate :=
  if (d.objects p).isLoaded then deinitializePlugin p (load p d) else d

/-- The function `SnoreCorePrivate::slotAboutToQuit` (lines 225-233), over
`PluginContainer::pluginCache(SnorePlugin::ALL)`. -/
def slotAboutToQuit (d : SnoreCorePrivate) : SnoreCorePrivate :=
  d.pluginCache.foldl quitStep d

/-- The ghost records of a trace: which calls of `setBackendIfAvailible`
returned, with what, in order. -/
def returns : List Event → List (String × Bool)
  | [] => []
  | Event.returned name result :: rest => (name, result) :: returns rest
  | _ :: rest => returns rest

/-- The candidates of `initPrimaryNotificationBackend`, in the order of the
source text. -/
def candidates (os : TargetOS) (d : SnoreCorePrivate) : List String :=
  value "PrimaryBackend" d ::
    ((match os with
      | TargetOS.windows v =>
        (if WV_WINDOWS8 ≤ v then ["Windows 8"] else []) ++ ["Growl", "Snarl"]
      | TargetOS.linux => ["FreedesktopNotification"]
      | TargetOS.mac => ["OSX Notification Center", "Growl"]
      | TargetOS.other => []) ++ ["Snore"])

/-- When `setBackendIfAvailible` answers: the name is registered, and it names
the primary backend already or a cached backend that is initialized or whose
next `initialize()` succeeds. -/
def canSet (backend : String) (d : SnoreCorePrivate) : Bool :=
  decide (backend ∈ d.m_pluginNames PluginTypes.BACKEND) &&
    (decide (primaryNotificationBackend d = some backend) ||
      match pluginCacheValue PluginTypes.BACKEND backend d with
      | none => false
      | some b => (d.objects b).isInitialized || (d.objects b).initOk 0)

/-- A backend plugin object of the given name whose `initialize()` calls
answer `initOk`. -/
def backendObject (name : String) (isLoaded isInitialized : Bool) (initOk : Nat → Bool) :
    PluginContainer :=
  { type := PluginTypes.BACKEND, name := name, isLoaded := isLoaded,
    isInitialized := isInitialized, enabled := false, canUpdateNotification := false,
    initOk := initOk }

/-- A registry with the two backends "Snore" (pointer 0) and "Growl" (pointer
1), both registered and cached. -/
def twoBackends (snore growl : PluginContainer) (primary : Option Nat) (setting : String) :
    SnoreCorePrivate :=
  { objects := fun i => if i = 0 then snore else if i = 1 then growl else default
    pluginCache := [0, 1]
    m_pluginNames := fun t => if t = PluginTypes.BACKEND then ["Snore", "Growl"] else []
    m_plugins := []
    m_notificationBackend := primary
    localSettings := fun k => if k = "PrimaryBackend" then setting else ""
    trace := [] }

/-- The backend "Snore" is the initialized primary backend while the persisted setting
names "Growl" (the setting was changed and not yet synchronised). -/
def settingChanged : SnoreCorePrivate :=
  twoBackends (backendObject "Snore" true true fun _ => true)
    (backendObject "Growl" false false fun _ => false) (some 0) "Growl"

/-- The backend "Snore" is the primary backend but not initialized (as after
`slotAboutToQuit`). -/
def primaryShutDown : SnoreCorePrivate :=
  twoBackends (backendObject "Snore" true false fun _ => true)
    (backendObject "Growl" false false fun _ => false) (some 0) "Snore"

/-- The backend "Snore" is the initialized primary backend, "Growl" can be initialized, and
the persisted setting names "Snore". -/
def growlAvailable : SnoreCorePrivate :=
  twoBackends (backendObject "Snore" true true fun _ => true)
    (backendObject "Growl" false false fun _ => true) (some 0) "Snore"

/-- The calls `slotAboutToQuit` makes for a list of cached containers, given
which of them are loaded. -/
def quitCalls (objects : Nat → PluginContainer) : List Nat → List Event
  | [] => []
  | p :: rest =>
    (if (objects p).isLoaded then [Event.loadCalled p, Event.deinitializeCalled p] else []) ++
      quitCalls objects rest

/-- The specification's words for `initPrimaryNotificationBackend`: try the
candidates in order and stop at the first success. -/
def tryInOrder : List String → SnoreCorePrivate → Bool × SnoreCorePrivate
  | [], d => (false, d)
  | c :: rest, d =>
    let r := setBackendIfAvailible c d
    if r.1 then (true, r.2) else tryInOrder rest r.2

/-- What no operation of the core changes: the plugin cache, the registered
names, `m_plugins`, and category, name, "Enabled" and `canUpdateNotification`
of every plugin object. -/
def Frame (d d' : SnoreCorePrivate) : Prop :=
  d'.pluginCache = d.pluginCache ∧ d'.m_pluginNames = d.m_pluginNames ∧
  d'.m_plugins = d.m_plugins ∧
  ∀ p, (d'.objects p).type = (d.objects p).type ∧ (d'.objects p).name = (d.objects p).name ∧
    (d'.objects p).enabled = (d.objects p).enabled ∧
    (d'.objects p).canUpdateNotification = (d.objects p).canUpdateNotification

/-- A fresh start: no primary backend yet, no setting persisted, and the
backends "Snore" (pointer 0) and "Growl" (pointer 1, cannot be initialized)
registered and cached. -/
def freshStart : SnoreCorePrivate :=
  twoBackends (backendObject "Snore" false false fun _ => true)
    (backendObject "Growl" false false fun _ => false) none ""

/-- Whether an outgoing call is `initialize()` or `deinitialize()` of the
plugin at pointer `p`. -/
def isLifecycleCall (p : Nat) : Event → Bool
  | Event.initializeCalled q _ => decide (q = p)
  | Event.deinitializeCalled q => decide (q = p)
  | _ => false

/-- The `initialize()` and `deinitialize()` calls a trace holds for the plugin
at pointer `p`, in order. -/
def lifecycleCalls (p : Nat) (t : List Event) : List Event :=
  t.filter (isLifecycleCall p)

/-- The names the three loops of `syncSettings` visit, in order. -/
def syncedNames (d : SnoreCorePrivate) : List String :=
  d.m_pluginNames PluginTypes.SECONDARY_BACKEND ++ d.m_pluginNames PluginTypes.FRONTEND ++
    d.m_pluginNames PluginTypes.PLUGIN

/-- The trace only grows: `d'` holds the calls of `d` and possibly more. -/
def Extends (d d' : SnoreCorePrivate) : Prop :=
  ∃ calls, d'.trace = d.trace ++ calls

/-- A frontend plugin object. -/
def frontendObject (name : String) (isInitialized enabled : Bool) (initOk : Nat → Bool) :
    PluginContainer :=
  { type := PluginTypes.FRONTEND, name := name, isLoaded := true,
    isInitialized := isInitialized, enabled := enabled, canUpdateNotification := false,
    initOk := initOk }

/-- The primary backend "Snore" (pointer 0) works, and the frontend "Pushover"
(pointer 1) is registered with the given state. -/
def withFrontend (frontend : PluginContainer) : SnoreCorePrivate :=
  { objects := fun i =>
      if i = 0 then backendObject "Snore" true true fun _ => true
      else if i = 1 then frontend else default
    pluginCache := [0, 1]
    m_pluginNames := fun t =>
      if t = PluginTypes.BACKEND then ["Snore"]
      else if t = PluginTypes.FRONTEND then ["Pushover"] else []
    m_plugins := [("Pushover", 1)]
    m_notificationBackend := some 0
    localSettings := fun k => if k = "PrimaryBackend" then "Snore" else ""
    trace := [] }

/-- A fresh start where `initialize()` of "Snore" succeeds the first time and
fails afterwards. -/
def snoreInitializesOnce : SnoreCorePrivate :=
  twoBackends (backendObject "Snore" false false fun k => decide (k = 0))
    (backendObject "Growl" false false fun _ => false) none ""

/-- How many names of a list `m_plugins` resolves to the plugin at pointer
`p`: the number of times the plugin loops visit that plugin. -/
def visits (p : Nat) (plugins : List (String × Nat)) : List String → Nat
  | [] => 0
  | n :: rest => (if plugins.lookup n = some p then 1 else 0) + visits p plugins rest

/-- The `initialize()` calls that `k` visits of the plugin loops make on an
enabled, uninitialized plugin whose future `initialize()` results are `ok`:
one call per visit until the first call that succeeds. -/
def initAttempts (p : Nat) : (Nat → Bool) → Nat → List Event
  | _, 0 => []
  | ok, k + 1 =>
    if ok 0 then [Event.initializeCalled p true]
    else Event.initializeCalled p false :: initAttempts p (fun i => ok (i + 1)) k

/-- Whether one of the first `k` future `initialize()` results is a success. -/
def attemptsSucceed : (Nat → Bool) → Nat → Bool
  | _, 0 => false
  | ok, k + 1 => ok 0 || attemptsSucceed (fun i => ok (i + 1)) k

/-- Between `x` and `e` the plugin at pointer `p` was at most initialized: its
new lifecycle calls are `ev`; an object that is not of category BACKEND got no
call and is unchanged; an initialized plugin stays initialized; an
uninitialized plugin either stays so with its future `initialize()` results
untouched, or received `initialize()` with its next result and is initialized
if that result is a success. -/
def InitOnly (p : Nat) (x e : SnoreCorePrivate) : Prop :=
  ∃ ev, lifecycleCalls p e.trace = lifecycleCalls p x.trace ++ ev ∧
    ((x.objects p).type ≠ PluginTypes.BACKEND → ev = [] ∧ e.objects p = x.objects p) ∧
    ((x.objects p).isInitialized = true → (e.objects p).isInitialized = true) ∧
    ((x.objects p).isInitialized = false →
      ((e.objects p).isInitialized = false ∧ (e.objects p).initOk = (x.objects p).initOk) ∨
      (Event.initializeCalled p ((x.objects p).initOk 0) ∈ ev ∧
        ((x.objects p).initOk 0 = true → (e.objects p).isInitialized = true)))

/-- The primary backend "Snore" (pointer 0) is initialized and enabled, and a
frontend is registered under the same name "Snore"; `m_plugins`, keyed by the
name alone, resolves that name to the backend object. -/
def frontendNamedLikeBackend : SnoreCorePrivate :=
  { objects := fun i =>
      if i = 0 then
        { type := PluginTypes.BACKEND, name := "Snore", isLoaded := true, isInitialized := true,
          enabled := true, canUpdateNotification := false, initOk := fun _ => true }
      else default
    pluginCache := [0]
    m_pluginNames := fun t =>
      if t = PluginTypes.BACKEND then ["Snore"]
      else if t = PluginTypes.FRONTEND then ["Snore"] else []
    m_plugins := [("Snore", 0)]
    m_notificationBackend := some 0
    localSettings := fun k => if k = "PrimaryBackend" then "Snore" else ""
    trace := [] }

/-! ## Projections of the primitive state updates -/

@[simp] theorem record_objects (e : Event) (d : SnoreCorePrivate) :
    (record e d).objects = d.objects := rfl
@[simp] theorem record_pluginCache (e : Event) (d : SnoreCorePrivate) :
    (record e d).pluginCache = d.pluginCache := rfl
@[simp] theorem record_pluginNames (e : Event) (d : SnoreCorePrivate) :
    (record e d).m_pluginNames = d.m_pluginNames := rfl
@[simp] theorem record_plugins (e : Event) (d : SnoreCorePrivate) :
    (record e d).m_plugins = d.m_plugins := rfl
@[simp] theorem record_backend (e : Event) (d : SnoreCorePrivate) :
    (record e d).m_notificationBackend = d.m_notificationBackend := rfl
@[simp] theorem record_localSettings (e : Event) (d : SnoreCorePrivate) :
    (record e d).localSettings = d.localSettings := rfl
@[simp] theorem record_trace (e : Event) (d : SnoreCorePrivate) :
    (record e d).trace = d.trace ++ [e] := rfl

@[simp] theorem setObject_objects (p : Nat) (c : PluginContainer) (d : SnoreCorePrivate)
    (i : Nat) : (setObject p c d).objects i = if i = p then c else d.objects i := rfl
@[simp] theorem setObject_pluginCache (p : Nat) (c : PluginContainer) (d : SnoreCorePrivate) :
    (setObject p c d).pluginCache = d.pluginCache := rfl
@[simp] theorem setObject_pluginNames (p : Nat) (c : PluginContainer) (d : SnoreCorePrivate) :
    (setObject p c d).m_pluginNames = d.m_pluginNames := rfl
@[simp] theorem setObject_plugins (p : Nat) (c : PluginContainer) (d : SnoreCorePrivate) :
    (setObject p c d).m_plugins = d.m_plugins := rfl
@[simp] theorem setObject_backend (p : Nat) (c : PluginContainer) (d : SnoreCorePrivate) :
    (setObject p c d).m_notificationBackend = d.m_notificationBackend := rfl
@[simp] theorem setObject_localSettings (p : Nat) (c : PluginContainer) (d : SnoreCorePrivate) :
    (setObject p c d).localSettings = d.localSettings := rfl
@[simp] theorem setObject_trace (p : Nat) (c : PluginContainer) (d : SnoreCorePrivate) :
    (setObject p c d).trace = d.trace := rfl

/-- The ghost records of a concatenation. -/
theorem returns_append (xs ys : List Event) : returns (xs ++ ys) = returns xs ++ returns ys := by
  induction xs with
  | nil => rfl
  | cons e xs ih => cases e <;> simp [returns, ih]

/-- The cache entry found under a key is a container of that category and name. -/
theorem pluginCacheValue_some {t : PluginTypes} {name : String} {d : SnoreCorePrivate} {b : Nat}
    (h : pluginCacheValue t name d = some b) :
    b ∈ d.pluginCache ∧ (d.objects b).type = t ∧ (d.objects b).name = name := by
  unfold pluginCacheValue at h
  have h1 := List.find?_some h
  have h2 := List.mem_of_find?_eq_some h
  simp at h1
  exact ⟨h2, h1.1, h1.2⟩

/-! ## The frame of the primitive operations -/

theorem frame_refl (d : SnoreCorePrivate) : Frame d d :=
  ⟨rfl, rfl, rfl, fun _ => ⟨rfl, rfl, rfl, rfl⟩⟩

theorem frame_trans {d1 d2 d3 : SnoreCorePrivate} (h12 : Frame d1 d2) (h23 : Frame d2 d3) :
    Frame d1 d3 := by
  obtain ⟨a1, a2, a3, a4⟩ := h12
  obtain ⟨b1, b2, b3, b4⟩ := h23
  refine ⟨b1.trans a1, b2.trans a2, b3.trans a3, fun p => ?_⟩
  obtain ⟨c1, c2, c3, c4⟩ := a4 p
  obtain ⟨e1, e2, e3, e4⟩ := b4 p
  exact ⟨e1.trans c1, e2.trans c2, e3.trans c3, e4.trans c4⟩

theorem frame_record (e : Event) (d : SnoreCorePrivate) : Frame d (record e d) :=
  ⟨rfl, rfl, rfl, fun _ => ⟨rfl, rfl, rfl, rfl⟩⟩

theorem frame_setObject (p : Nat) (c : PluginContainer) (d : SnoreCorePrivate)
    (h1 : c.type = (d.objects p).type) (h2 : c.name = (d.objects p).name)
    (h3 : c.enabled = (d.objects p).enabled)
    (h4 : c.canUpdateNotification = (d.objects p).canUpdateNotification) :
    Frame d (setObject p c d) := by
  refine ⟨rfl, rfl, rfl, fun q => ?_⟩
  by_cases hq : q = p
  · subst hq; simp [h1, h2, h3, h4]
  · simp [hq]

theorem frame_load (p : Nat) (d : SnoreCorePrivate) : Frame d (load p d) := by
  unfold load
  refine frame_trans ?_ (frame_record _ _)
  exact frame_setObject p _ d rfl rfl rfl rfl

theorem frame_initializePlugin (p : Nat) (d : SnoreCorePrivate) :
    Frame d (initializePlugin p d).2 := by
  unfold initializePlugin
  refine frame_trans ?_ (frame_record _ _)
  exact frame_setObject p _ d rfl rfl rfl rfl

theorem frame_deinitializePlugin (p : Nat) (d : SnoreCorePrivate) :
    Frame d (deinitializePlugin p d) := by
  unfold deinitializePlugin
  refine frame_trans ?_ (frame_record _ _)
  exact frame_setObject p _ d rfl rfl rfl rfl

theorem frame_setValue (key val : String) (d : SnoreCorePrivate) : Frame d (setValue key val d) :=
  ⟨rfl, rfl, rfl, fun _ => ⟨rfl, rfl, rfl, rfl⟩⟩

theorem frame_setBackendPointer (b : Option Nat) (d : SnoreCorePrivate) :
    Frame d { d with m_notificationBackend := b } :=
  ⟨rfl, rfl, rfl, fun _ => ⟨rfl, rfl, rfl, rfl⟩⟩

theorem frame_ensureInitialized (b : Nat) (d : SnoreCorePrivate) :
    Frame d (ensureInitialized b d).2 := by
  unfold ensureInitialized
  split
  · exact frame_refl d
  · exact frame_initializePlugin b d

theorem frame_installBackend (b : Nat) (backend : String) (d : SnoreCorePrivate) :
    Frame d (installBackend b backend d) := by
  unfold installBackend
  cases d.m_notificationBackend with
  | none => exact frame_trans (frame_setBackendPointer _ _) (frame_setValue _ _ _)
  | some old =>
    exact frame_trans (frame_trans (frame_deinitializePlugin old d) (frame_setBackendPointer _ _))
      (frame_setValue _ _ _)

/-- Cache lookups only read what the frame keeps. -/
theorem frame_pluginCacheValue {d d' : SnoreCorePrivate} (h : Frame d d') (t : PluginTypes)
    (name : String) : pluginCacheValue t name d' = pluginCacheValue t name d := by
  unfold pluginCacheValue
  rw [h.1]
  congr 1
  funext p
  rw [(h.2.2.2 p).1, (h.2.2.2 p).2.1]

/-! ## The cases of `setBackendIfAvailible` -/

theorem setBackendIfAvailible_unregistered {backend : String} {d : SnoreCorePrivate}
    (hreg : backend ∉ d.m_pluginNames PluginTypes.BACKEND) :
    setBackendIfAvailible backend d = (false, record (Event.returned backend false) d) := by
  simp [setBackendIfAvailible, setBackendIfAvailibleBody, hreg]

theorem setBackendIfAvailible_current {backend : String} {d : SnoreCorePrivate}
    (hreg : backend ∈ d.m_pluginNames PluginTypes.BACKEND)
    (hcur : primaryNotificationBackend d = some backend) :
    setBackendIfAvailible backend d = (true, record (Event.returned backend true) d) := by
  simp [setBackendIfAvailible, setBackendIfAvailibleBody, hreg, hcur]

theorem setBackendIfAvailible_uncached {backend : String} {d : SnoreCorePrivate}
    (hreg : backend ∈ d.m_pluginNames PluginTypes.BACKEND)
    (hcur : primaryNotificationBackend d ≠ some backend)
    (hc : pluginCacheValue PluginTypes.BACKEND backend d = none) :
    setBackendIfAvailible backend d = (false, record (Event.returned backend false) d) := by
  simp [setBackendIfAvailible, setBackendIfAvailibleBody, hreg, hcur, hc]

theorem setBackendIfAvailible_failed {backend : String} {d : SnoreCorePrivate} {b : Nat}
    (hreg : backend ∈ d.m_pluginNames PluginTypes.BACKEND)
    (hcur : primaryNotificationBackend d ≠ some backend)
    (hc : pluginCacheValue PluginTypes.BACKEND backend d = some b)
    (hi : (d.objects b).isInitialized = false) (ho : (d.objects b).initOk 0 = false) :
    setBackendIfAvailible backend d =
      (false, record (Event.returned backend false) (initializePlugin b (load b d)).2) := by
  simp [setBackendIfAvailible, setBackendIfAvailibleBody, hreg, hcur, hc, ensureInitialized,
    load, hi, initializePlugin, ho]

theorem setBackendIfAvailible_switched {backend : String} {d : SnoreCorePrivate} {b : Nat}
    (hreg : backend ∈ d.m_pluginNames PluginTypes.BACKEND)
    (hcur : primaryNotificationBackend d ≠ some backend)
    (hc : pluginCacheValue PluginTypes.BACKEND backend d = some b)
    (hok : (d.objects b).isInitialized = true ∨ (d.objects b).initOk 0 = true) :
    setBackendIfAvailible backend d =
      (true, record (Event.returned backend true)
        (installBackend b backend (ensureInitialized b (load b d)).2)) := by
  by_cases hi : (d.objects b).isInitialized = true
  · simp [setBackendIfAvailible, setBackendIfAvailibleBody, hreg, hcur, hc, ensureInitialized,
      load, hi]
  · have ho : (d.objects b).initOk 0 = true := hok.resolve_left hi
    simp [setBackendIfAvailible, setBackendIfAvailibleBody, hreg, hcur, hc, ensureInitialized,
      load, hi, initializePlugin, ho]

/-- The value `setBackendIfAvailible` returns. -/
theorem setBackendIfAvailible_fst (backend : String) (d : SnoreCorePrivate) :
    (setBackendIfAvailible backend d).1 = canSet backend d := by
  by_cases hreg : backend ∈ d.m_pluginNames PluginTypes.BACKEND
  · by_cases hcur : primaryNotificationBackend d = some backend
    · rw [setBackendIfAvailible_current hreg hcur]; simp [canSet, hreg, hcur]
    · cases hc : pluginCacheValue PluginTypes.BACKEND backend d with
      | none => rw [setBackendIfAvailible_uncached hreg hcur hc]; simp [canSet, hreg, hcur, hc]
      | some b =>
        by_cases hok : (d.objects b).isInitialized = true ∨ (d.objects b).initOk 0 = true
        · rw [setBackendIfAvailible_switched hreg hcur hc hok]
          rcases hok with h | h <;> simp [canSet, hreg, hcur, hc, h]
        · simp only [not_or, Bool.not_eq_true] at hok
          rw [setBackendIfAvailible_failed hreg hcur hc hok.1 hok.2]
          simp [canSet, hreg, hcur, hc, hok.1, hok.2]
  · rw [setBackendIfAvailible_unregistered hreg]; simp [canSet, hreg]

/-- The frame of `setBackendIfAvailible`. -/
theorem setBackendIfAvailible_frame (backend : String) (d : SnoreCorePrivate) :
    Frame d (setBackendIfAvailible backend d).2 := by
  by_cases hreg : backend ∈ d.m_pluginNames PluginTypes.BACKEND
  · by_cases hcur : primaryNotificationBackend d = some backend
    · rw [setBackendIfAvailible_current hreg hcur]; exact frame_record _ _
    · cases hc : pluginCacheValue PluginTypes.BACKEND backend d with
      | none => rw [setBackendIfAvailible_uncached hreg hcur hc]; exact frame_record _ _
      | some b =>
        by_cases hok : (d.objects b).isInitialized = true ∨ (d.objects b).initOk 0 = true
        · rw [setBackendIfAvailible_switched hreg hcur hc hok]
          exact frame_trans (frame_trans (frame_trans (frame_load b d)
            (frame_ensureInitialized b _)) (frame_installBackend b backend _)) (frame_record _ _)
        · simp only [not_or, Bool.not_eq_true] at hok
          rw [setBackendIfAvailible_failed hreg hcur hc hok.1 hok.2]
          exact frame_trans (frame_trans (frame_load b d) (frame_initializePlugin b _))
            (frame_record _ _)
  · rw [setBackendIfAvailible_unregistered hreg]; exact frame_record _ _

/-- A cached backend of another name than the active one is another object. -/
theorem cached_ne_active {backend : String} {d : SnoreCorePrivate} {b old : Nat}
    (hcur : primaryNotificationBackend d ≠ some backend)
    (hc : pluginCacheValue PluginTypes.BACKEND backend d = some b)
    (hold : d.m_notificationBackend = some old) : old ≠ b := by
  intro he
  apply hcur
  simp [primaryNotificationBackend, hold, he, (pluginCacheValue_some hc).2.2]

/-- A failed `setBackendIfAvailible`: why it failed and what it left alone. -/
theorem setBackendIfAvailible_of_false (backend : String) (d : SnoreCorePrivate)
    (h : (setBackendIfAvailible backend d).1 = false) :
    (backend ∉ d.m_pluginNames PluginTypes.BACKEND ∨
      pluginCacheValue PluginTypes.BACKEND backend d = none ∨
      ∃ b, pluginCacheValue PluginTypes.BACKEND backend d = some b ∧
        (d.objects b).isInitialized = false ∧ (d.objects b).initOk 0 = false) ∧
    (setBackendIfAvailible backend d).2.m_notificationBackend = d.m_notificationBackend ∧
    (setBackendIfAvailible backend d).2.localSettings = d.localSettings ∧
    (∀ old, d.m_notificationBackend = some old →
      (setBackendIfAvailible backend d).2.objects old = d.objects old) ∧
    (∀ p, (d.objects p).name ≠ backend →
      (setBackendIfAvailible backend d).2.objects p = d.objects p) ∧
    ∃ calls, (setBackendIfAvailible backend d).2.trace = d.trace ++ calls ∧
      (∀ p, Event.deinitializeCalled p ∉ calls) ∧
      (∀ k v, Event.setValueCalled k v ∉ calls) := by
  by_cases hreg : backend ∈ d.m_pluginNames PluginTypes.BACKEND
  · by_cases hcur : primaryNotificationBackend d = some backend
    · rw [setBackendIfAvailible_current hreg hcur] at h; simp at h
    · cases hc : pluginCacheValue PluginTypes.BACKEND backend d with
      | none =>
        rw [setBackendIfAvailible_uncached hreg hcur hc]
        exact ⟨Or.inr (Or.inl rfl), rfl, rfl, fun _ _ => rfl, fun _ _ => rfl,
          [Event.returned backend false], rfl, by simp, by simp⟩
      | some b =>
        by_cases hok : (d.objects b).isInitialized = true ∨ (d.objects b).initOk 0 = true
        · rw [setBackendIfAvailible_switched hreg hcur hc hok] at h; simp at h
        · simp only [not_or, Bool.not_eq_true] at hok
          rw [setBackendIfAvailible_failed hreg hcur hc hok.1 hok.2]
          have hb := pluginCacheValue_some hc
          refine ⟨Or.inr (Or.inr ⟨b, rfl, hok.1, hok.2⟩), rfl, rfl, ?_, ?_,
            [Event.loadCalled b, Event.initializeCalled b false, Event.returned backend false],
            ?_, by simp, by simp⟩
          · intro old hold
            have hne := cached_ne_active hcur hc hold
            simp [initializePlugin, load, hne]
          · intro p hp
            have hne : p ≠ b := by
              intro e; subst e; exact hp hb.2.2
            simp [initializePlugin, load, hne]
          · simp [initializePlugin, load, hok.2]
  · rw [setBackendIfAvailible_unregistered hreg]
    exact ⟨Or.inl hreg, rfl, rfl, fun _ _ => rfl, fun _ _ => rfl,
      [Event.returned backend false], rfl, by simp, by simp⟩

/-- A successful `setBackendIfAvailible`: either the early return, which
changes nothing, or the switch to the cached backend of that name. -/
theorem setBackendIfAvailible_of_true (backend : String) (d : SnoreCorePrivate)
    (h : (setBackendIfAvailible backend d).1 = true) :
    primaryNotificationBackend (setBackendIfAvailible backend d).2 = some backend ∧
    (primaryNotificationBackend d = some backend →
      (setBackendIfAvailible backend d).2.objects = d.objects ∧
      (setBackendIfAvailible backend d).2.m_notificationBackend = d.m_notificationBackend ∧
      (setBackendIfAvailible backend d).2.localSettings = d.localSettings) ∧
    (primaryNotificationBackend d ≠ some backend →
      ∃ b, pluginCacheValue PluginTypes.BACKEND backend d = some b ∧
        (setBackendIfAvailible backend d).2.m_notificationBackend = some b ∧
        ((setBackendIfAvailible backend d).2.objects b).isInitialized = true ∧
        value "PrimaryBackend" (setBackendIfAvailible backend d).2 = backend ∧
        ∀ old, d.m_notificationBackend = some old →
          old ≠ b ∧
          ((setBackendIfAvailible backend d).2.objects old).isInitialized = false ∧
          ∃ calls, (setBackendIfAvailible backend d).2.trace = d.trace ++ calls ∧
            Event.deinitializeCalled old ∈ calls) := by
  by_cases hreg : backend ∈ d.m_pluginNames PluginTypes.BACKEND
  · by_cases hcur : primaryNotificationBackend d = some backend
    · rw [setBackendIfAvailible_current hreg hcur]
      refine ⟨?_, fun _ => ⟨rfl, rfl, rfl⟩, fun hn => absurd hcur hn⟩
      simpa [primaryNotificationBackend] using hcur
    · cases hc : pluginCacheValue PluginTypes.BACKEND backend d with
      | none => rw [setBackendIfAvailible_uncached hreg hcur hc] at h; simp at h
      | some b =>
        have hb := pluginCacheValue_some hc
        by_cases hok : (d.objects b).isInitialized = true ∨ (d.objects b).initOk 0 = true
        · rw [setBackendIfAvailible_switched hreg hcur hc hok]
          have hinit : ((ensureInitialized b (load b d)).2.objects b).isInitialized = true := by
            by_cases hi : (d.objects b).isInitialized = true
            · simp [ensureInitialized, load, hi]
            · have ho := hok.resolve_left hi
              simp [ensureInitialized, load, hi, initializePlugin, ho]
          have hname : ((ensureInitialized b (load b d)).2.objects b).name = backend := by
            rw [((frame_trans (frame_load b d) (frame_ensureInitialized b _)).2.2.2 b).2.1]
            exact hb.2.2
          have hnb : (ensureInitialized b (load b d)).2.m_notificationBackend =
              d.m_notificationBackend := by
            by_cases hi : (d.objects b).isInitialized = true
            · simp [ensureInitialized, load, hi]
            · simp [ensureInitialized, load, hi, initializePlugin]
          have htr : ∃ pre, (ensureInitialized b (load b d)).2.trace = d.trace ++ pre := by
            by_cases hi : (d.objects b).isInitialized = true
            · exact ⟨[Event.loadCalled b], by simp [ensureInitialized, load, hi]⟩
            · exact ⟨[Event.loadCalled b, Event.initializeCalled b ((d.objects b).initOk 0)],
                by simp [ensureInitialized, load, hi, initializePlugin]⟩
          obtain ⟨pre, hpre⟩ := htr
          generalize (ensureInitialized b (load b d)).2 = e at hinit hname hnb hpre
          refine ⟨?_, fun hn => absurd hn hcur, fun _ => ⟨b, rfl, ?_, ?_, ?_, ?_⟩⟩
          · cases hm : e.m_notificationBackend with
            | none => simp [installBackend, hm, primaryNotificationBackend, setValue, hname]
            | some old =>
              have hne := cached_ne_active hcur hc (hnb ▸ hm)
              have hne2 : b ≠ old := fun x => hne x.symm
              simp [installBackend, hm, primaryNotificationBackend, setValue,
                deinitializePlugin, hne2, hname]
          · cases hm : e.m_notificationBackend with
            | none => simp [installBackend, hm, setValue]
            | some old => simp [installBackend, hm, setValue]
          · cases hm : e.m_notificationBackend with
            | none => simp [installBackend, hm, setValue, hinit]
            | some old =>
              have hne := cached_ne_active hcur hc (hnb ▸ hm)
              have hne2 : b ≠ old := fun x => hne x.symm
              simp [installBackend, hm, setValue, deinitializePlugin, hne2, hinit]
          · cases hm : e.m_notificationBackend with
            | none => simp [installBackend, hm, setValue, value]
            | some old => simp [installBackend, hm, setValue, value]
          · intro old hold
            have hm : e.m_notificationBackend = some old := hnb.trans hold
            refine ⟨cached_ne_active hcur hc hold, ?_, ?_⟩
            · simp [installBackend, hm, setValue, deinitializePlugin]
            · refine ⟨pre ++ [Event.deinitializeCalled old,
                Event.setValueCalled "PrimaryBackend" backend, Event.returned backend true],
                ?_, ?_⟩
              · simp [installBackend, hm, setValue, deinitializePlugin, hpre]
              · simp
        · simp only [not_or, Bool.not_eq_true] at hok
          rw [setBackendIfAvailible_failed hreg hcur hc hok.1 hok.2] at h; simp at h
  · rw [setBackendIfAvailible_unregistered hreg] at h; simp at h

/-- The ghost record `setBackendIfAvailible` leaves. -/
theorem setBackendIfAvailible_returns (backend : String) (d : SnoreCorePrivate) :
    returns (setBackendIfAvailible backend d).2.trace =
      returns d.trace ++ [(backend, (setBackendIfAvailible backend d).1)] := by
  by_cases hreg : backend ∈ d.m_pluginNames PluginTypes.BACKEND
  · by_cases hcur : primaryNotificationBackend d = some backend
    · rw [setBackendIfAvailible_current hreg hcur]; simp [returns_append, returns]
    · cases hc : pluginCacheValue PluginTypes.BACKEND backend d with
      | none => rw [setBackendIfAvailible_uncached hreg hcur hc]; simp [returns_append, returns]
      | some b =>
        by_cases hok : (d.objects b).isInitialized = true ∨ (d.objects b).initOk 0 = true
        · rw [setBackendIfAvailible_switched hreg hcur hc hok]
          by_cases hi : (d.objects b).isInitialized = true
          · cases hm : d.m_notificationBackend with
            | none =>
              simp [installBackend, ensureInitialized, load, hi, hm, setValue, returns_append,
                returns]
            | some old =>
              simp [installBackend, ensureInitialized, load, hi, hm, setValue, returns_append,
                returns, deinitializePlugin]
          · cases hm : d.m_notificationBackend with
            | none =>
              simp [installBackend, ensureInitialized, load, hi, hm, setValue, returns_append,
                returns, initializePlugin]
            | some old =>
              simp [installBackend, ensureInitialized, load, hi, hm, setValue, returns_append,
                returns, deinitializePlugin, initializePlugin]
        · simp only [not_or, Bool.not_eq_true] at hok
          rw [setBackendIfAvailible_failed hreg hcur hc hok.1 hok.2]
          simp [initializePlugin, load, returns_append, returns]
  · rw [setBackendIfAvailible_unregistered hreg]; simp [returns_append, returns]

/-- C8: when `setBackendIfAvailible` returns false, the name is unregistered,
or not in the backend cache, or its backend failed to initialize; the primary
backend reference and every persisted local setting are unchanged, the
previously active backend object is untouched, and the calls made contain no
`deinitialize()` and no `setValue()`. -/
theorem setBackendIfAvailible_atomic_on_failure (backend : String) (d : SnoreCorePrivate)
    (h : (setBackendIfAvailible backend d).1 = false) :
    (backend ∉ d.m_pluginNames PluginTypes.BACKEND ∨
      pluginCacheValue PluginTypes.BACKEND backend d = none ∨
      ∃ b, pluginCacheValue PluginTypes.BACKEND backend d = some b ∧
        (d.objects b).isInitialized = false ∧ (d.objects b).initOk 0 = false) ∧
    (setBackendIfAvailible backend d).2.m_notificationBackend = d.m_notificationBackend ∧
    (setBackendIfAvailible backend d).2.localSettings = d.localSettings ∧
    (∀ old, d.m_notificationBackend = some old →
      (setBackendIfAvailible backend d).2.objects old = d.objects old) ∧
    ∃ calls, (setBackendIfAvailible backend d).2.trace = d.trace ++ calls ∧
      (∀ p, Event.deinitializeCalled p ∉ calls) ∧
      (∀ k v, Event.setValueCalled k v ∉ calls) := by
  obtain ⟨h1, h2, h3, h4, _, h6⟩ := setBackendIfAvailible_of_false backend d h
  exact ⟨h1, h2, h3, h4, h6⟩

/-- Witness of C8: "Growl" cannot be initialized, "Snore" stays primary. -/
theorem setBackendIfAvailible_atomic_on_failure_witness :
    (setBackendIfAvailible "Growl" settingChanged).1 = false ∧
    (setBackendIfAvailible "Growl" settingChanged).2.m_notificationBackend =
      settingChanged.m_notificationBackend :=
  ⟨by decide, (setBackendIfAvailible_atomic_on_failure "Growl" settingChanged (by decide)).2.1⟩

/-- C7, as stated, fails on the early return: asked for the backend that is
already primary, `setBackendIfAvailible` returns true and leaves the persisted
setting (here "Growl") and the initialization state (here not initialized) as
they were. -/
theorem setBackendIfAvailible_early_return_keeps_state :
    ((setBackendIfAvailible "Snore" settingChanged).1 = true ∧
      value "PrimaryBackend" (setBackendIfAvailible "Snore" settingChanged).2 ≠ "Snore") ∧
    ((setBackendIfAvailible "Snore" primaryShutDown).1 = true ∧
      (setBackendIfAvailible "Snore" primaryShutDown).2.m_notificationBackend = some 0 ∧
      ((setBackendIfAvailible "Snore" primaryShutDown).2.objects 0).isInitialized = false) := by
  decide

/-- C7 (amended): when `setBackendIfAvailible name` returns true, the primary
backend afterwards is called `name`.  If `name` was the primary backend
already, objects, primary backend and settings are untouched.  Otherwise the
primary backend is the cached backend of that name, it is initialized, the
previously active backend (if any) is another object, has received
`deinitialize()` and is not initialized, and the persisted local setting
"PrimaryBackend" equals `name`. -/
theorem setBackendIfAvailible_success (backend : String) (d : SnoreCorePrivate)
    (h : (setBackendIfAvailible backend d).1 = true) :
    primaryNotificationBackend (setBackendIfAvailible backend d).2 = some backend ∧
    (primaryNotificationBackend d = some backend →
      (setBackendIfAvailible backend d).2.objects = d.objects ∧
      (setBackendIfAvailible backend d).2.m_notificationBackend = d.m_notificationBackend ∧
      (setBackendIfAvailible backend d).2.localSettings = d.localSettings) ∧
    (primaryNotificationBackend d ≠ some backend →
      ∃ b, pluginCacheValue PluginTypes.BACKEND backend d = some b ∧
        (setBackendIfAvailible backend d).2.m_notificationBackend = some b ∧
        ((setBackendIfAvailible backend d).2.objects b).isInitialized = true ∧
        value "PrimaryBackend" (setBackendIfAvailible backend d).2 = backend ∧
        ∀ old, d.m_notificationBackend = some old →
          old ≠ b ∧
          ((setBackendIfAvailible backend d).2.objects old).isInitialized = false ∧
          ∃ calls, (setBackendIfAvailible backend d).2.trace = d.trace ++ calls ∧
            Event.deinitializeCalled old ∈ calls) :=
  setBackendIfAvailible_of_true backend d h

/-- Witness of C7 (amended): switching from "Snore" to "Growl". -/
theorem setBackendIfAvailible_success_witness :
    (setBackendIfAvailible "Growl" growlAvailable).1 = true ∧
    primaryNotificationBackend (setBackendIfAvailible "Growl" growlAvailable).2 = some "Growl" :=
  ⟨by decide, (setBackendIfAvailible_success "Growl" growlAvailable (by decide)).1⟩

/-! ## Start-up: `initPrimaryNotificationBackend` -/

/-- The source text of `initPrimaryNotificationBackend` tries the candidates
in order and stops at the first success. -/
theorem initPrimaryNotificationBackend_eq_tryInOrder (os : TargetOS) (d : SnoreCorePrivate) :
    initPrimaryNotificationBackend os d = tryInOrder (candidates os d) d := by
  cases os with
  | windows v =>
    by_cases hv : WV_WINDOWS8 ≤ v
    · simp only [initPrimaryNotificationBackend, candidates, tryInOrder, hv, if_true,
        List.cons_append, List.nil_append, List.singleton_append]
    · simp only [initPrimaryNotificationBackend, candidates, tryInOrder, hv, if_false,
        List.cons_append, List.nil_append, List.singleton_append]
      split <;> rfl
  | linux =>
    simp only [initPrimaryNotificationBackend, candidates, tryInOrder,
      List.cons_append, List.nil_append, List.singleton_append]
  | mac =>
    simp only [initPrimaryNotificationBackend, candidates, tryInOrder,
      List.cons_append, List.nil_append, List.singleton_append]
  | other =>
    simp only [initPrimaryNotificationBackend, candidates, tryInOrder,
      List.cons_append, List.nil_append, List.singleton_append]

/-- Trying candidates in order: on success the calls made are the failed
candidates before the first successful one, then that one, and it names the
primary backend; on failure every candidate was called and failed. -/
theorem tryInOrder_returns (cs : List String) : ∀ d : SnoreCorePrivate,
    ((tryInOrder cs d).1 = true →
      ∃ pre c post, cs = pre ++ c :: post ∧
        returns (tryInOrder cs d).2.trace =
          returns d.trace ++ pre.map (fun x => (x, false)) ++ [(c, true)] ∧
        primaryNotificationBackend (tryInOrder cs d).2 = some c) ∧
    ((tryInOrder cs d).1 = false →
      returns (tryInOrder cs d).2.trace = returns d.trace ++ cs.map (fun x => (x, false))) := by
  induction cs with
  | nil => intro d; simp [tryInOrder]
  | cons c rest ih =>
    intro d
    have hret := setBackendIfAvailible_returns c d
    cases hr : (setBackendIfAvailible c d).1 with
    | true =>
      have hp := (setBackendIfAvailible_of_true c d hr).1
      simp only [tryInOrder, hr, if_true]
      refine ⟨fun _ => ⟨[], c, rest, rfl, ?_, hp⟩, fun h => by simp at h⟩
      rw [hret, hr]; simp
    | false =>
      obtain ⟨ih1, ih2⟩ := ih (setBackendIfAvailible c d).2
      have hstep : tryInOrder (c :: rest) d = tryInOrder rest (setBackendIfAvailible c d).2 := by
        simp [tryInOrder, hr]
      rw [hstep]
      rw [hret, hr] at ih1 ih2
      constructor
      · intro h
        obtain ⟨pre, x, post, hcs, htr, hprim⟩ := ih1 h
        refine ⟨c :: pre, x, post, by simp [hcs], ?_, hprim⟩
        rw [htr]; simp
      · intro h
        rw [ih2 h]; simp

/-- C1: `initPrimaryNotificationBackend` works through the candidate list
(the persisted "PrimaryBackend", the platform list, "Snore") in order.  If it
returns true, the calls of `setBackendIfAvailible` it made are the candidates
up to some candidate `c`, all failing before `c` and succeeding at `c`, no
later candidate was called, and the primary backend afterwards is called `c`.
If it returns false, every candidate was called in order and failed. -/
theorem initPrimaryNotificationBackend_first_success (os : TargetOS) (d : SnoreCorePrivate) :
    ((initPrimaryNotificationBackend os d).1 = true →
      ∃ pre c post, candidates os d = pre ++ c :: post ∧
        returns (initPrimaryNotificationBackend os d).2.trace =
          returns d.trace ++ pre.map (fun x => (x, false)) ++ [(c, true)] ∧
        primaryNotificationBackend (initPrimaryNotificationBackend os d).2 = some c) ∧
    ((initPrimaryNotificationBackend os d).1 = false →
      returns (initPrimaryNotificationBackend os d).2.trace =
        returns d.trace ++ (candidates os d).map (fun x => (x, false))) := by
  rw [initPrimaryNotificationBackend_eq_tryInOrder]
  exact tryInOrder_returns (candidates os d) d

/-- A failed attempt on one name does not change whether another name can be
set. -/
theorem canSet_after_failure {c x : String} {d : SnoreCorePrivate} (hne : x ≠ c)
    (h : (setBackendIfAvailible c d).1 = false) :
    canSet x (setBackendIfAvailible c d).2 = canSet x d := by
  obtain ⟨_, hnb, _, _, hobj, _⟩ := setBackendIfAvailible_of_false c d h
  have hf := setBackendIfAvailible_frame c d
  have hprim : primaryNotificationBackend (setBackendIfAvailible c d).2 =
      primaryNotificationBackend d := by
    unfold primaryNotificationBackend
    rw [hnb]
    cases d.m_notificationBackend with
    | none => rfl
    | some b => simp [(hf.2.2.2 b).2.1]
  unfold canSet
  rw [hf.2.1, hprim, frame_pluginCacheValue hf]
  cases hc : pluginCacheValue PluginTypes.BACKEND x d with
  | none => rfl
  | some b =>
    have hb := pluginCacheValue_some hc
    have : (setBackendIfAvailible c d).2.objects b = d.objects b :=
      hobj b (by rw [hb.2.2]; exact hne)
    simp [this]

/-- A candidate that can be set makes trying in order succeed. -/
theorem tryInOrder_of_canSet (x : String) (cs : List String) : ∀ d : SnoreCorePrivate,
    x ∈ cs → canSet x d = true →
    (tryInOrder cs d).1 = true ∧ ∃ b, (tryInOrder cs d).2.m_notificationBackend = some b := by
  induction cs with
  | nil => intro d hx; simp at hx
  | cons c rest ih =>
    intro d hx hcan
    cases hr : (setBackendIfAvailible c d).1 with
    | true =>
      have hp := (setBackendIfAvailible_of_true c d hr).1
      simp only [tryInOrder, hr, if_true, true_and]
      unfold primaryNotificationBackend at hp
      cases hm : (setBackendIfAvailible c d).2.m_notificationBackend with
      | none => simp [hm] at hp
      | some b => exact ⟨b, rfl⟩
    | false =>
      have hstep : tryInOrder (c :: rest) d = tryInOrder rest (setBackendIfAvailible c d).2 := by
        simp [tryInOrder, hr]
      rw [hstep]
      have hne : x ≠ c := by
        intro e; subst e
        rw [setBackendIfAvailible_fst, hcan] at hr
        simp at hr
      have hx2 : x ∈ rest := by
        rcases List.mem_cons.mp hx with e | h
        · exact absurd e hne
        · exact h
      exact ih _ hx2 (by rw [canSet_after_failure hne hr]; exact hcan)

/-- C2: if "Snore" is a registered backend name, is in the backend cache, and
its backend is initialized or its next `initialize()` succeeds, then on every
platform and for every setting `initPrimaryNotificationBackend` returns true
and a primary backend is set afterwards. -/
theorem initPrimaryNotificationBackend_last_resort (os : TargetOS) (d : SnoreCorePrivate)
    (snore : Nat) (hreg : "Snore" ∈ d.m_pluginNames PluginTypes.BACKEND)
    (hcache : pluginCacheValue PluginTypes.BACKEND "Snore" d = some snore)
    (hinit : (d.objects snore).isInitialized = true ∨ (d.objects snore).initOk 0 = true) :
    (initPrimaryNotificationBackend os d).1 = true ∧
    ∃ b, (initPrimaryNotificationBackend os d).2.m_notificationBackend = some b := by
  rw [initPrimaryNotificationBackend_eq_tryInOrder]
  apply tryInOrder_of_canSet "Snore"
  · cases os <;> simp [candidates]
  · unfold canSet
    rcases hinit with h | h <;> simp [hreg, hcache, h]

/-- Witness of C2: a fresh start on Linux with "Snore" available. -/
theorem initPrimaryNotificationBackend_last_resort_witness :
    (initPrimaryNotificationBackend TargetOS.linux freshStart).1 = true ∧
    ∃ b, (initPrimaryNotificationBackend TargetOS.linux freshStart).2.m_notificationBackend =
      some b :=
  initPrimaryNotificationBackend_last_resort TargetOS.linux freshStart 0 (by decide) (by decide)
    (by decide)

/-! ## Synchronising the plugins with their "Enabled" flags -/

/-- One step of the plugin loops, when it does not dereference null. -/
theorem syncPluginStatus_some {name : String} {d d1 : SnoreCorePrivate}
    (h : syncPluginStatus name d = some d1) :
    ∃ q, d.m_plugins.lookup name = some q ∧
      d1 = if (!(d.objects q).isInitialized && (d.objects q).enabled) = true then
          (initializePlugin q d).2
        else if ((d.objects q).isInitialized && !(d.objects q).enabled) = true then
          deinitializePlugin q d
        else d := by
  unfold syncPluginStatus at h
  cases hl : d.m_plugins.lookup name with
  | none => simp [hl] at h
  | some q =>
    refine ⟨q, rfl, ?_⟩
    simp only [hl] at h
    split at h
    · rename_i h1; simp only [h1, if_true]; exact (Option.some.inj h).symm
    · rename_i h1
      split at h
      · rename_i h2; simp only [h1, h2, if_true]; exact (Option.some.inj h).symm
      · rename_i h2; simp only [h1, h2]; exact (Option.some.inj h).symm

/-- A step of the plugin loops keeps the frame, the primary backend and the
settings. -/
theorem syncPluginStatus_frame {name : String} {d d1 : SnoreCorePrivate}
    (h : syncPluginStatus name d = some d1) :
    Frame d d1 ∧ d1.m_notificationBackend = d.m_notificationBackend ∧
      d1.localSettings = d.localSettings := by
  obtain ⟨q, _, hd⟩ := syncPluginStatus_some h
  subst hd
  split
  · exact ⟨frame_initializePlugin q d, rfl, rfl⟩
  · split
    · exact ⟨frame_deinitializePlugin q d, rfl, rfl⟩
    · exact ⟨frame_refl d, rfl, rfl⟩

/-- A step of the plugin loops on one plugin leaves every other plugin and the
calls made on it alone. -/
theorem syncPluginStatus_other {name : String} {d d1 : SnoreCorePrivate} {q p : Nat}
    (h : syncPluginStatus name d = some d1) (hq : d.m_plugins.lookup name = some q)
    (hp : p ≠ q) :
    d1.objects p = d.objects p ∧ lifecycleCalls p d1.trace = lifecycleCalls p d.trace := by
  obtain ⟨q2, hq2, hd⟩ := syncPluginStatus_some h
  rw [hq] at hq2
  cases hq2
  have hqp : ¬ q = p := fun e => hp e.symm
  subst hd
  split
  · simp [initializePlugin, hp, lifecycleCalls, List.filter_append, isLifecycleCall, hqp]
  · split
    · simp [deinitializePlugin, hp, lifecycleCalls, List.filter_append, isLifecycleCall, hqp]
    · exact ⟨rfl, rfl⟩

/-- A step of the plugin loops on a plugin whose state matches its flag does
nothing. -/
theorem syncPluginStatus_settled {name : String} {d d1 : SnoreCorePrivate} {q : Nat}
    (h : syncPluginStatus name d = some d1) (hq : d.m_plugins.lookup name = some q)
    (hs : (d.objects q).isInitialized = (d.objects q).enabled) : d1 = d := by
  obtain ⟨q2, hq2, hd⟩ := syncPluginStatus_some h
  rw [hq] at hq2
  cases hq2
  subst hd
  rw [hs]
  cases (d.objects q).enabled <;> simp

/-- A loop keeps the frame, the primary backend and the settings. -/
theorem syncEach_frame (names : List String) : ∀ {d d' : SnoreCorePrivate},
    syncEach names d = some d' →
    Frame d d' ∧ d'.m_notificationBackend = d.m_notificationBackend ∧
      d'.localSettings = d.localSettings := by
  induction names with
  | nil =>
    intro d d' h
    simp only [syncEach] at h
    cases h
    exact ⟨frame_refl d, rfl, rfl⟩
  | cons n rest ih =>
    intro d d' h
    simp only [syncEach] at h
    cases hs : syncPluginStatus n d with
    | none => simp [hs] at h
    | some d1 =>
      simp only [hs] at h
      obtain ⟨f1, b1, s1⟩ := syncPluginStatus_frame hs
      obtain ⟨f2, b2, s2⟩ := ih h
      exact ⟨frame_trans f1 f2, b2.trans b1, s2.trans s1⟩

/-- A loop leaves alone every plugin that it does not visit or whose state
already matches its flag. -/
theorem syncEach_inert (p : Nat) (names : List String) : ∀ {d d' : SnoreCorePrivate},
    syncEach names d = some d' →
    ((d.objects p).isInitialized = (d.objects p).enabled ∨
      ∀ n ∈ names, d.m_plugins.lookup n ≠ some p) →
    d'.objects p = d.objects p ∧ lifecycleCalls p d'.trace = lifecycleCalls p d.trace := by
  induction names with
  | nil =>
    intro d d' h _
    simp only [syncEach] at h
    cases h
    exact ⟨rfl, rfl⟩
  | cons n rest ih =>
    intro d d' h hin
    simp only [syncEach] at h
    cases hs : syncPluginStatus n d with
    | none => simp [hs] at h
    | some d1 =>
      simp only [hs] at h
      obtain ⟨q, hq, _⟩ := syncPluginStatus_some hs
      have hf := (syncPluginStatus_frame hs).1
      have hstep : d1.objects p = d.objects p ∧
          lifecycleCalls p d1.trace = lifecycleCalls p d.trace := by
        by_cases hpq : p = q
        · subst hpq
          rcases hin with hset | hnot
          · rw [syncPluginStatus_settled hs hq hset]; exact ⟨rfl, rfl⟩
          · exact absurd hq (hnot n (List.mem_cons_self _ _))
        · exact syncPluginStatus_other hs hq hpq
      have hin1 : (d1.objects p).isInitialized = (d1.objects p).enabled ∨
          ∀ m ∈ rest, d1.m_plugins.lookup m ≠ some p := by
        rcases hin with hset | hnot
        · left; rw [hstep.1]; exact hset
        · right
          intro m hm
          rw [hf.2.2.1]
          exact hnot m (List.mem_cons_of_mem _ hm)
      obtain ⟨o2, t2⟩ := ih h hin1
      exact ⟨o2.trans hstep.1, t2.trans hstep.2⟩

/-- A loop that visits a plugin whose state does not match its flag settles
it at the first visit: a disabled initialized plugin is deinitialized once, an
enabled uninitialized plugin whose `initialize()` succeeds is initialized
once. -/
theorem syncEach_settles (p : Nat) (names : List String) : ∀ {d d' : SnoreCorePrivate},
    syncEach names d = some d' →
    (∃ n ∈ names, d.m_plugins.lookup n = some p) →
    ((d.objects p).enabled = false → (d.objects p).isInitialized = true →
      (d'.objects p).isInitialized = false ∧
      lifecycleCalls p d'.trace = lifecycleCalls p d.trace ++ [Event.deinitializeCalled p]) ∧
    ((d.objects p).enabled = true → (d.objects p).isInitialized = false →
      (d.objects p).initOk 0 = true →
      (d'.objects p).isInitialized = true ∧
      lifecycleCalls p d'.trace =
        lifecycleCalls p d.trace ++ [Event.initializeCalled p true]) := by
  induction names with
  | nil => intro d d' _ hv; obtain ⟨n, hn, _⟩ := hv; simp at hn
  | cons n rest ih =>
    intro d d' h hv
    simp only [syncEach] at h
    cases hs : syncPluginStatus n d with
    | none => simp [hs] at h
    | some d1 =>
      simp only [hs] at h
      obtain ⟨q, hq, hd⟩ := syncPluginStatus_some hs
      have hf := (syncPluginStatus_frame hs).1
      by_cases hpq : p = q
      · subst hpq
        constructor
        · intro he hi
          have hd1 : d1 = deinitializePlugin p d := by simpa [he, hi] using hd
          have hset : (d1.objects p).isInitialized = (d1.objects p).enabled := by
            rw [hd1]; simp [deinitializePlugin, he]
          obtain ⟨o2, t2⟩ := syncEach_inert p rest h (Or.inl hset)
          rw [o2, t2, hd1]
          simp [deinitializePlugin, lifecycleCalls, List.filter_append, isLifecycleCall]
        · intro he hi ho
          have hd1 : d1 = (initializePlugin p d).2 := by simpa [he, hi] using hd
          have hset : (d1.objects p).isInitialized = (d1.objects p).enabled := by
            rw [hd1]; simp [initializePlugin, he, ho]
          obtain ⟨o2, t2⟩ := syncEach_inert p rest h (Or.inl hset)
          rw [o2, t2, hd1]
          simp [initializePlugin, lifecycleCalls, List.filter_append, isLifecycleCall, ho]
      · obtain ⟨o1, t1⟩ := syncPluginStatus_other hs hq hpq
        have hv1 : ∃ m ∈ rest, d1.m_plugins.lookup m = some p := by
          obtain ⟨m, hm, hl⟩ := hv
          rcases List.mem_cons.mp hm with e | hm2
          · subst e
            rw [hq] at hl
            exact absurd (Option.some.inj hl).symm hpq
          · exact ⟨m, hm2, by rw [hf.2.2.1]; exact hl⟩
        have := ih h hv1
        rw [o1, t1] at this
        exact this

/-- A loop goes through exactly when every name it visits is a key of
`m_plugins`. -/
theorem syncEach_isSome (names : List String) : ∀ d : SnoreCorePrivate,
    (∃ d', syncEach names d = some d') ↔
      ∀ n ∈ names, ∃ p, d.m_plugins.lookup n = some p := by
  induction names with
  | nil => intro d; simp [syncEach]
  | cons n rest ih =>
    intro d
    constructor
    · rintro ⟨d', h⟩
      simp only [syncEach] at h
      cases hs : syncPluginStatus n d with
      | none => simp [hs] at h
      | some d1 =>
        simp only [hs] at h
        obtain ⟨q, hq, _⟩ := syncPluginStatus_some hs
        have hf := (syncPluginStatus_frame hs).1
        have hrest := (ih d1).mp ⟨d', h⟩
        intro m hm
        rcases List.mem_cons.mp hm with e | hm2
        · subst e; exact ⟨q, hq⟩
        · obtain ⟨p, hp⟩ := hrest m hm2
          exact ⟨p, by rw [← hf.2.2.1]; exact hp⟩
    · intro hall
      obtain ⟨q, hq⟩ := hall n (List.mem_cons_self _ _)
      have hs : ∃ d1, syncPluginStatus n d = some d1 := by
        unfold syncPluginStatus
        simp only [hq]
        split
        · exact ⟨_, rfl⟩
        · split
          · exact ⟨_, rfl⟩
          · exact ⟨_, rfl⟩
      obtain ⟨d1, hs⟩ := hs
      have hf := (syncPluginStatus_frame hs).1
      have hrest : ∀ m ∈ rest, ∃ p, d1.m_plugins.lookup m = some p := by
        intro m hm
        obtain ⟨p, hp⟩ := hall m (List.mem_cons_of_mem _ hm)
        exact ⟨p, by rw [hf.2.2.1]; exact hp⟩
      obtain ⟨d', h⟩ := (ih d1).mpr hrest
      exact ⟨d', by simp only [syncEach, hs]; exact h⟩

/-- Two loops in a row are one loop over the concatenation. -/
theorem syncEach_append (xs ys : List String) : ∀ d : SnoreCorePrivate,
    syncEach (xs ++ ys) d =
      match syncEach xs d with
      | none => none
      | some d1 => syncEach ys d1 := by
  induction xs with
  | nil => intro d; simp [syncEach]
  | cons x rest ih =>
    intro d
    simp only [List.cons_append, syncEach]
    cases syncPluginStatus x d with
    | none => rfl
    | some d1 => exact ih d1

/-- The three loops of `syncSettings` are one loop over the three name lists
in a row. -/
theorem syncPlugins_eq_syncEach (d : SnoreCorePrivate) :
    syncPlugins d = syncEach (syncedNames d) d := by
  unfold syncPlugins syncedNames
  rw [syncEach_append, syncEach_append]
  cases h1 : syncEach (d.m_pluginNames PluginTypes.SECONDARY_BACKEND) d with
  | none => rfl
  | some d1 =>
    have f1 := (syncEach_frame _ h1).1
    simp only [f1.2.1]
    cases h2 : syncEach (d.m_pluginNames PluginTypes.FRONTEND) d1 with
    | none => rfl
    | some d2 =>
      have f2 := (syncEach_frame _ h2).1
      simp only [f2.2.1, f1.2.1]

/-! ## The trace only grows -/

theorem extends_refl (d : SnoreCorePrivate) : Extends d d := ⟨[], by simp⟩

theorem extends_trans {d1 d2 d3 : SnoreCorePrivate} (h12 : Extends d1 d2) (h23 : Extends d2 d3) :
    Extends d1 d3 := by
  obtain ⟨a, ha⟩ := h12
  obtain ⟨b, hb⟩ := h23
  exact ⟨a ++ b, by rw [hb, ha, List.append_assoc]⟩

theorem extends_record (e : Event) (d : SnoreCorePrivate) : Extends d (record e d) := ⟨[e], rfl⟩

theorem extends_load (p : Nat) (d : SnoreCorePrivate) : Extends d (load p d) := ⟨[_], rfl⟩

theorem extends_initializePlugin (p : Nat) (d : SnoreCorePrivate) :
    Extends d (initializePlugin p d).2 := ⟨[_], rfl⟩

theorem extends_deinitializePlugin (p : Nat) (d : SnoreCorePrivate) :
    Extends d (deinitializePlugin p d) := ⟨[_], rfl⟩

theorem extends_ensureInitialized (b : Nat) (d : SnoreCorePrivate) :
    Extends d (ensureInitialized b d).2 := by
  unfold ensureInitialized
  split
  · exact extends_refl d
  · exact extends_initializePlugin b d

theorem extends_installBackend (b : Nat) (backend : String) (d : SnoreCorePrivate) :
    Extends d (installBackend b backend d) := by
  unfold installBackend
  cases d.m_notificationBackend with
  | none => exact ⟨[_], rfl⟩
  | some old => exact extends_trans (extends_deinitializePlugin old d) ⟨[_], rfl⟩

theorem setBackendIfAvailible_extends (backend : String) (d : SnoreCorePrivate) :
    Extends d (setBackendIfAvailible backend d).2 := by
  by_cases hreg : backend ∈ d.m_pluginNames PluginTypes.BACKEND
  · by_cases hcur : primaryNotificationBackend d = some backend
    · rw [setBackendIfAvailible_current hreg hcur]; exact extends_record _ _
    · cases hc : pluginCacheValue PluginTypes.BACKEND backend d with
      | none => rw [setBackendIfAvailible_uncached hreg hcur hc]; exact extends_record _ _
      | some b =>
        by_cases hok : (d.objects b).isInitialized = true ∨ (d.objects b).initOk 0 = true
        · rw [setBackendIfAvailible_switched hreg hcur hc hok]
          exact extends_trans (extends_trans (extends_trans (extends_load b d)
            (extends_ensureInitialized b _)) (extends_installBackend b backend _))
            (extends_record _ _)
        · simp only [not_or, Bool.not_eq_true] at hok
          rw [setBackendIfAvailible_failed hreg hcur hc hok.1 hok.2]
          exact extends_trans (extends_trans (extends_load b d) (extends_initializePlugin b _))
            (extends_record _ _)
  · rw [setBackendIfAvailible_unregistered hreg]; exact extends_record _ _

theorem syncPluginStatus_extends {name : String} {d d1 : SnoreCorePrivate}
    (h : syncPluginStatus name d = some d1) : Extends d d1 := by
  obtain ⟨q, _, hd⟩ := syncPluginStatus_some h
  subst hd
  split
  · exact extends_initializePlugin q d
  · split
    · exact extends_deinitializePlugin q d
    · exact extends_refl d

theorem syncEach_extends (names : List String) : ∀ {d d' : SnoreCorePrivate},
    syncEach names d = some d' → Extends d d' := by
  induction names with
  | nil =>
    intro d d' h
    simp only [syncEach] at h
    cases h
    exact extends_refl d
  | cons n rest ih =>
    intro d d' h
    simp only [syncEach] at h
    cases hs : syncPluginStatus n d with
    | none => simp [hs] at h
    | some d1 =>
      simp only [hs] at h
      exact extends_trans (syncPluginStatus_extends hs) (ih h)

/-! ## Tearing down and re-selecting the primary backend -/

theorem frame_tornDown (old : Nat) (d : SnoreCorePrivate) : Frame d (tornDown old d) :=
  frame_trans (frame_deinitializePlugin old d) (frame_setBackendPointer _ _)

/-- Re-selection goes through exactly when a primary backend is set, and keeps
the frame. -/
theorem reselectBackend_some {d : SnoreCorePrivate} {old : Nat}
    (hold : d.m_notificationBackend = some old) :
    ∃ d1, reselectBackend d = some d1 ∧ Frame d d1 ∧
      ∃ calls, d1.trace = d.trace ++ Event.deinitializeCalled old :: calls := by
  unfold reselectBackend
  simp only [hold]
  have ft := frame_tornDown old d
  have et : (tornDown old d).trace = d.trace ++ [Event.deinitializeCalled old] := rfl
  have f1 := setBackendIfAvailible_frame (value "PrimaryBackend" (tornDown old d)) (tornDown old d)
  obtain ⟨c1, e1⟩ := setBackendIfAvailible_extends (value "PrimaryBackend" (tornDown old d))
    (tornDown old d)
  split
  · have f2 := setBackendIfAvailible_frame (d.objects old).name
      (setBackendIfAvailible (value "PrimaryBackend" (tornDown old d)) (tornDown old d)).2
    obtain ⟨c2, e2⟩ := setBackendIfAvailible_extends (d.objects old).name
      (setBackendIfAvailible (value "PrimaryBackend" (tornDown old d)) (tornDown old d)).2
    exact ⟨_, rfl, frame_trans (frame_trans ft f1) f2, c1 ++ c2, by rw [e2, e1, et]; simp⟩
  · exact ⟨_, rfl, frame_trans ft f1, c1, by rw [e1, et]; simp⟩

/-- A name that resolves to a plugin is a visit of it. -/
theorem visits_pos {p : Nat} {plugins : List (String × Nat)} {names : List String} {n : String}
    (hn : n ∈ names) (hp : plugins.lookup n = some p) : 0 < visits p plugins names := by
  induction names with
  | nil => simp at hn
  | cons m rest ih =>
    rcases List.mem_cons.mp hn with e | h
    · subst e; simp [visits, hp]
    · have := ih h
      simp only [visits]
      omega

/-- The first of one or more attempts is `initialize()` with the next result,
and a success of it is a success of the attempts. -/
theorem initAttempts_first (p : Nat) (ok : Nat → Bool) {k : Nat} (hk : 0 < k) :
    Event.initializeCalled p (ok 0) ∈ initAttempts p ok k ∧
    (ok 0 = true → attemptsSucceed ok k = true) := by
  cases k with
  | zero => omega
  | succ k =>
    cases h : ok 0 <;> simp [initAttempts, attemptsSucceed, h]

/-- Attempts that do not succeed end with a failed `initialize()`. -/
theorem initAttempts_getLast (p : Nat) : ∀ (k : Nat) (ok : Nat → Bool) (xs : List Event),
    0 < k → attemptsSucceed ok k = false →
    (xs ++ initAttempts p ok k).getLast? = some (Event.initializeCalled p false) := by
  intro k
  induction k with
  | zero => intro ok xs hk; omega
  | succ k ih =>
    intro ok xs _ hs
    simp only [attemptsSucceed, Bool.or_eq_false_iff] at hs
    cases k with
    | zero => simp [initAttempts, hs.1]
    | succ j =>
      have := ih (fun i => ok (i + 1)) (xs ++ [Event.initializeCalled p false]) (by omega) hs.2
      simpa [initAttempts, hs.1] using this

/-- A loop over names makes, on an enabled uninitialized plugin, one
`initialize()` per visit until the first success, and nothing else. -/
theorem syncEach_attempts (p : Nat) (names : List String) : ∀ {d d' : SnoreCorePrivate},
    syncEach names d = some d' →
    (d.objects p).enabled = true → (d.objects p).isInitialized = false →
    lifecycleCalls p d'.trace = lifecycleCalls p d.trace ++
        initAttempts p (d.objects p).initOk (visits p d.m_plugins names) ∧
      (d'.objects p).isInitialized =
        attemptsSucceed (d.objects p).initOk (visits p d.m_plugins names) := by
  induction names with
  | nil =>
    intro d d' h _ hi
    simp only [syncEach] at h
    cases h
    simp [visits, initAttempts, attemptsSucceed, hi]
  | cons n rest ih =>
    intro d d' h he hi
    simp only [syncEach] at h
    cases hs : syncPluginStatus n d with
    | none => simp [hs] at h
    | some d1 =>
      simp only [hs] at h
      obtain ⟨q, hq, hd⟩ := syncPluginStatus_some hs
      have hf := (syncPluginStatus_frame hs).1
      by_cases hpq : p = q
      · subst hpq
        have hd1 : d1 = (initializePlugin p d).2 := by simpa [he, hi] using hd
        have hv : visits p d.m_plugins (n :: rest) = visits p d.m_plugins rest + 1 := by
          simp [visits, hq, Nat.add_comm]
        rw [hv]
        cases ho : (d.objects p).initOk 0 with
        | true =>
          have hset : (d1.objects p).isInitialized = (d1.objects p).enabled := by
            rw [hd1]; simp [initializePlugin, he, ho]
          obtain ⟨o2, t2⟩ := syncEach_inert p rest h (Or.inl hset)
          rw [o2, t2, hd1]
          simp [initializePlugin, lifecycleCalls, List.filter_append, isLifecycleCall, ho,
            initAttempts, attemptsSucceed]
        | false =>
          have he1 : (d1.objects p).enabled = true := by rw [hd1]; simp [initializePlugin, he]
          have hi1 : (d1.objects p).isInitialized = false := by
            rw [hd1]; simp [initializePlugin, hi, ho]
          have hok1 : (d1.objects p).initOk = fun i => (d.objects p).initOk (i + 1) := by
            rw [hd1]; simp [initializePlugin]
          have ht1 : lifecycleCalls p d1.trace =
              lifecycleCalls p d.trace ++ [Event.initializeCalled p false] := by
            rw [hd1]
            simp [initializePlugin, lifecycleCalls, List.filter_append, isLifecycleCall, ho]
          obtain ⟨t2, i2⟩ := ih h he1 hi1
          rw [hf.2.2.1, hok1] at t2 i2
          rw [t2, i2, ht1]
          simp [initAttempts, attemptsSucceed, ho]
      · obtain ⟨o1, t1⟩ := syncPluginStatus_other hs hq hpq
        have hv : visits p d.m_plugins (n :: rest) = visits p d.m_plugins rest := by
          have hne : ¬ q = p := fun e => hpq e.symm
          simp [visits, hq, hne]
        obtain ⟨t2, i2⟩ := ih h (by rw [o1]; exact he) (by rw [o1]; exact hi)
        rw [hf.2.2.1, o1, t1] at t2
        rw [hf.2.2.1, o1] at i2
        rw [hv]
        exact ⟨t2, i2⟩

/-! ## What backend re-selection does to one plugin -/

theorem initOnly_refl (p : Nat) (x : SnoreCorePrivate) : InitOnly p x x :=
  ⟨[], by simp, fun _ => ⟨rfl, rfl⟩, fun h => h, fun h => Or.inl ⟨h, rfl⟩⟩

theorem initOnly_trans {p : Nat} {x e e' : SnoreCorePrivate} (h1 : InitOnly p x e)
    (h2 : InitOnly p e e') : InitOnly p x e' := by
  obtain ⟨ev1, t1, n1, i1, u1⟩ := h1
  obtain ⟨ev2, t2, n2, i2, u2⟩ := h2
  refine ⟨ev1 ++ ev2, by rw [t2, t1, List.append_assoc], ?_, fun h => i2 (i1 h), ?_⟩
  · intro ht
    obtain ⟨a1, o1⟩ := n1 ht
    obtain ⟨a2, o2⟩ := n2 (by rw [o1]; exact ht)
    exact ⟨by rw [a1, a2]; rfl, o2.trans o1⟩
  · intro hx
    rcases u1 hx with ⟨he, hok⟩ | ⟨hm, hs⟩
    · rcases u2 he with ⟨he', hok'⟩ | ⟨hm', hs'⟩
      · exact Or.inl ⟨he', hok'.trans hok⟩
      · rw [hok] at hm' hs'
        exact Or.inr ⟨List.mem_append_right _ hm', hs'⟩
    · exact Or.inr ⟨List.mem_append_left _ hm, fun h => i2 (hs h)⟩

/-- With no primary backend set, `setBackendIfAvailible` deinitializes
nothing: a plugin is at most initialized by it, and only a backend object. -/
theorem setBackendIfAvailible_initOnly (backend : String) (d : SnoreCorePrivate)
    (hnb : d.m_notificationBackend = none) (p : Nat) :
    InitOnly p d (setBackendIfAvailible backend d).2 := by
  have hsame : ∀ e : Event, isLifecycleCall p e = false →
      InitOnly p d (record e d) := by
    intro e he
    exact ⟨[], by simp [lifecycleCalls, List.filter_append, he], fun _ => ⟨rfl, rfl⟩,
      fun h => h, fun h => Or.inl ⟨h, rfl⟩⟩
  by_cases hreg : backend ∈ d.m_pluginNames PluginTypes.BACKEND
  · by_cases hcur : primaryNotificationBackend d = some backend
    · rw [setBackendIfAvailible_current hreg hcur]; exact hsame _ rfl
    · cases hc : pluginCacheValue PluginTypes.BACKEND backend d with
      | none => rw [setBackendIfAvailible_uncached hreg hcur hc]; exact hsame _ rfl
      | some b =>
        have hb := pluginCacheValue_some hc
        by_cases hok : (d.objects b).isInitialized = true ∨ (d.objects b).initOk 0 = true
        · rw [setBackendIfAvailible_switched hreg hcur hc hok]
          by_cases hpb : p = b
          · subst hpb
            by_cases hi : (d.objects p).isInitialized = true
            · refine ⟨[], ?_, fun ht => absurd hb.2.1 ht, fun _ => ?_, fun h => ?_⟩
              · simp [installBackend, ensureInitialized, load, hi, hnb, setValue,
                  lifecycleCalls, List.filter_append, isLifecycleCall]
              · simp [installBackend, ensureInitialized, load, hi, hnb, setValue]
              · rw [hi] at h; simp at h
            · have ho := hok.resolve_left hi
              refine ⟨[Event.initializeCalled p ((d.objects p).initOk 0)], ?_,
                fun ht => absurd hb.2.1 ht, fun h => absurd h hi,
                fun _ => Or.inr ⟨by simp, ?_⟩⟩
              · simp [installBackend, ensureInitialized, load, hi, hnb, setValue,
                  initializePlugin, lifecycleCalls, List.filter_append, isLifecycleCall]
              · intro _
                simp [installBackend, ensureInitialized, load, hi, hnb, setValue,
                  initializePlugin, ho]
          · have hbp : ¬ b = p := fun e => hpb e.symm
            have hobj : (installBackend b backend (ensureInitialized b (load b d)).2).objects p =
                d.objects p := by
              by_cases hi : (d.objects b).isInitialized = true
              · simp [installBackend, ensureInitialized, load, hi, hnb, setValue, hpb]
              · simp [installBackend, ensureInitialized, load, hi, hnb, setValue,
                  initializePlugin, hpb]
            have htr : lifecycleCalls p
                (record (Event.returned backend true)
                  (installBackend b backend (ensureInitialized b (load b d)).2)).trace =
                lifecycleCalls p d.trace := by
              by_cases hi : (d.objects b).isInitialized = true
              · simp [installBackend, ensureInitialized, load, hi, hnb, setValue,
                  lifecycleCalls, List.filter_append, isLifecycleCall]
              · simp [installBackend, ensureInitialized, load, hi, hnb, setValue,
                  initializePlugin, lifecycleCalls, List.filter_append, isLifecycleCall, hbp]
            refine ⟨[], by rw [htr]; simp, fun _ => ⟨rfl, hobj⟩, fun h => ?_, fun h => ?_⟩
            · show ((installBackend b backend (ensureInitialized b (load b d)).2).objects
                p).isInitialized = true
              rw [hobj]; exact h
            · refine Or.inl ⟨?_, ?_⟩
              · show ((installBackend b backend (ensureInitialized b (load b d)).2).objects
                  p).isInitialized = false
                rw [hobj]; exact h
              · show ((installBackend b backend (ensureInitialized b (load b d)).2).objects
                  p).initOk = _
                rw [hobj]
        · simp only [not_or, Bool.not_eq_true] at hok
          rw [setBackendIfAvailible_failed hreg hcur hc hok.1 hok.2]
          by_cases hpb : p = b
          · subst hpb
            refine ⟨[Event.initializeCalled p ((d.objects p).initOk 0)], ?_,
              fun ht => absurd hb.2.1 ht, fun h => ?_, fun _ => Or.inr ⟨by simp, fun h => ?_⟩⟩
            · simp [load, initializePlugin, lifecycleCalls, List.filter_append,
                isLifecycleCall]
            · rw [hok.1] at h; simp at h
            · rw [hok.2] at h; simp at h
          · have hbp : ¬ b = p := fun e => hpb e.symm
            have hobj : (initializePlugin b (load b d)).2.objects p = d.objects p := by
              simp [load, initializePlugin, hpb]
            refine ⟨[], ?_, fun _ => ⟨rfl, hobj⟩, fun h => ?_, fun h => Or.inl ⟨?_, ?_⟩⟩
            · simp [load, initializePlugin, lifecycleCalls, List.filter_append,
                isLifecycleCall, hbp]
            · show ((initializePlugin b (load b d)).2.objects p).isInitialized = true
              rw [hobj]; exact h
            · show ((initializePlugin b (load b d)).2.objects p).isInitialized = false
              rw [hobj]; exact h
            · show ((initializePlugin b (load b d)).2.objects p).initOk = _
              rw [hobj]
  · rw [setBackendIfAvailible_unregistered hreg]; exact hsame _ rfl

/-- After the tear-down, re-selection at most initializes a plugin. -/
theorem reselectBackend_initOnly {d d1 : SnoreCorePrivate} {old : Nat}
    (hold : d.m_notificationBackend = some old) (h1 : reselectBackend d = some d1) (p : Nat) :
    InitOnly p (tornDown old d) d1 := by
  have hnone : (tornDown old d).m_notificationBackend = none := rfl
  have s1 := setBackendIfAvailible_initOnly (value "PrimaryBackend" (tornDown old d))
    (tornDown old d) hnone p
  unfold reselectBackend at h1
  simp only [hold] at h1
  cases hr : (setBackendIfAvailible (value "PrimaryBackend" (tornDown old d))
      (tornDown old d)).1 with
  | true =>
    simp only [hr, Bool.not_true, Bool.false_eq_true, if_false] at h1
    cases h1
    exact s1
  | false =>
    simp only [hr, Bool.not_false, if_true] at h1
    cases h1
    have hnb1 := (setBackendIfAvailible_of_false _ _ hr).2.1
    exact initOnly_trans s1
      (setBackendIfAvailible_initOnly (d.objects old).name _ (hnb1.trans hnone) p)

/-- What the tear-down does to one plugin: the old primary backend receives
`deinitialize()`, every other plugin is untouched. -/
theorem tornDown_on_plugin (old p : Nat) (d : SnoreCorePrivate) :
    lifecycleCalls p (tornDown old d).trace =
      lifecycleCalls p d.trace ++ (if p = old then [Event.deinitializeCalled p] else []) ∧
    ((tornDown old d).objects p).initOk = (d.objects p).initOk ∧
    (p ≠ old → (tornDown old d).objects p = d.objects p) ∧
    (p = old → ((tornDown old d).objects p).isInitialized = false) := by
  by_cases hp : p = old
  · subst hp
    simp [tornDown, deinitializePlugin, lifecycleCalls, List.filter_append, isLifecycleCall]
  · have hp2 : ¬ old = p := fun e => hp e.symm
    simp [tornDown, deinitializePlugin, lifecycleCalls, List.filter_append, isLifecycleCall,
      hp, hp2]

/-- C3, as stated, fails twice.  The frontend "Pushover" is enabled and not
initialized, its `initialize()` fails, and `syncSettings` ignores that result:
afterwards it is still enabled and not initialized.  And a plugin named in
the FRONTEND list that `m_plugins` resolves to the primary backend object,
initialized and enabled (its state matches its flag), receives `deinitialize()`
and `initialize()` from the re-selection of the primary backend. -/
theorem syncSettings_enabled_plugin_may_stay_uninitialized :
    (syncSettings (withFrontend (frontendObject "Pushover" false true fun _ => false))).map
      (fun d => ((d.objects 1).enabled, (d.objects 1).isInitialized)) = some (true, false) ∧
    ("Snore" ∈ syncedNames frontendNamedLikeBackend ∧
      frontendNamedLikeBackend.m_plugins.lookup "Snore" = some 0 ∧
      (frontendNamedLikeBackend.objects 0).isInitialized = true ∧
      (frontendNamedLikeBackend.objects 0).enabled = true ∧
      (syncSettings frontendNamedLikeBackend).map (fun d => lifecycleCalls 0 d.trace) =
        some [Event.deinitializeCalled 0, Event.initializeCalled 0 true]) := by
  decide

/-- C3 (amended): with a primary backend `b` set and every synchronised name a
key of `m_plugins`, `syncSettings` returns, and for every plugin `p` named in
the SECONDARY_BACKEND, FRONTEND and PLUGIN lists, relative to the state on
entry: its "Enabled" flag is unchanged; if disabled it is not initialized
afterwards; if enabled it is initialized afterwards unless the last call it
received is a failed `initialize()`; a disabled initialized plugin has received
`deinitialize()`; an enabled uninitialized plugin has received `initialize()`
with its next result and is initialized if that result is a success; and if
`p` is neither the primary backend nor an object of category BACKEND (which
the re-selection of the primary backend may tear down and initialize), the
calls it received are exactly: none when its state matched its flag, one
`deinitialize()` when it was disabled and initialized, and when it was enabled
and uninitialized one `initialize()` per visit of the loops until the first
success. -/
theorem syncSettings_syncs_plugins (d : SnoreCorePrivate) (b : Nat)
    (hb : d.m_notificationBackend = some b)
    (hres : ∀ n ∈ syncedNames d, (d.m_plugins.lookup n).isSome = true) :
    ∃ d', syncSettings d = some d' ∧
      ∀ n ∈ syncedNames d, ∃ p, d.m_plugins.lookup n = some p ∧
        (d'.objects p).enabled = (d.objects p).enabled ∧
        ((d.objects p).enabled = false → (d'.objects p).isInitialized = false) ∧
        ((d.objects p).enabled = true →
          (d'.objects p).isInitialized = true ∨
          (lifecycleCalls p d'.trace).getLast? = some (Event.initializeCalled p false)) ∧
        ((d.objects p).enabled = false → (d.objects p).isInitialized = true →
          ∃ calls, lifecycleCalls p d'.trace = lifecycleCalls p d.trace ++ calls ∧
            Event.deinitializeCalled p ∈ calls) ∧
        ((d.objects p).enabled = true → (d.objects p).isInitialized = false →
          ∃ calls, lifecycleCalls p d'.trace = lifecycleCalls p d.trace ++ calls ∧
            Event.initializeCalled p ((d.objects p).initOk 0) ∈ calls ∧
            ((d.objects p).initOk 0 = true → (d'.objects p).isInitialized = true)) ∧
        (p ≠ b → (d.objects p).type ≠ PluginTypes.BACKEND →
          ((d.objects p).enabled = false →
            lifecycleCalls p d'.trace = lifecycleCalls p d.trace ++
              (if (d.objects p).isInitialized then [Event.deinitializeCalled p] else [])) ∧
          ((d.objects p).enabled = true → (d.objects p).isInitialized = true →
            lifecycleCalls p d'.trace = lifecycleCalls p d.trace) ∧
          ((d.objects p).enabled = true → (d.objects p).isInitialized = false →
            lifecycleCalls p d'.trace = lifecycleCalls p d.trace ++
                initAttempts p (d.objects p).initOk
                  (visits p d.m_plugins (syncedNames d)) ∧
              (d'.objects p).isInitialized =
                attemptsSucceed (d.objects p).initOk
                  (visits p d.m_plugins (syncedNames d)))) := by
  obtain ⟨d1, h1, hf, _⟩ := reselectBackend_some hb
  have hnames : syncedNames d1 = syncedNames d := by
    unfold syncedNames; rw [hf.2.1]
  have hres1 : ∀ n ∈ syncedNames d1, ∃ p, d1.m_plugins.lookup n = some p := by
    intro n hn
    rw [hf.2.2.1]
    exact Option.isSome_iff_exists.mp (hres n (hnames ▸ hn))
  obtain ⟨d', h2⟩ := (syncEach_isSome _ d1).mpr hres1
  have hsync : syncSettings d = some d' := by
    simp [syncSettings, h1, syncPlugins_eq_syncEach, h2]
  have hf2 := (syncEach_frame _ h2).1
  obtain ⟨calls2, hcalls2⟩ := syncEach_extends _ h2
  refine ⟨d', hsync, fun n hn => ?_⟩
  obtain ⟨p, hp⟩ := Option.isSome_iff_exists.mp (hres n hn)
  have hp1 : d1.m_plugins.lookup n = some p := by rw [hf.2.2.1]; exact hp
  have hn1 : n ∈ syncedNames d1 := hnames ▸ hn
  have hvis : ∃ m ∈ syncedNames d1, d1.m_plugins.lookup m = some p := ⟨n, hn1, hp1⟩
  have hk : 0 < visits p d1.m_plugins (syncedNames d1) := visits_pos hn1 hp1
  have hen1 : (d1.objects p).enabled = (d.objects p).enabled := (hf.2.2.2 p).2.2.1
  obtain ⟨sD, sE⟩ := syncEach_settles p _ h2 hvis
  obtain ⟨xt, xok, xobj, xold⟩ := tornDown_on_plugin b p d
  obtain ⟨ev, et, en, ei, eu⟩ := reselectBackend_initOnly hb h1 p
  have hloop : lifecycleCalls p d'.trace =
      lifecycleCalls p d1.trace ++ lifecycleCalls p calls2 := by
    rw [hcalls2]; simp [lifecycleCalls, List.filter_append]
  have hpre : lifecycleCalls p d1.trace = lifecycleCalls p d.trace ++
      ((if p = b then [Event.deinitializeCalled p] else []) ++ ev) := by
    rw [et, xt, List.append_assoc]
  refine ⟨p, hp, (hf2.2.2.2 p).2.2.1.trans hen1, ?_, ?_, ?_, ?_, ?_⟩
  · intro he
    rw [← hen1] at he
    cases hi : (d1.objects p).isInitialized with
    | true => exact (sD he hi).1
    | false =>
      rw [(syncEach_inert p _ h2 (Or.inl (by rw [hi, he]))).1]
      exact hi
  · intro he
    rw [← hen1] at he
    cases hi : (d1.objects p).isInitialized with
    | true =>
      left
      rw [(syncEach_inert p _ h2 (Or.inl (by rw [hi, he]))).1]
      exact hi
    | false =>
      obtain ⟨ta, ia⟩ := syncEach_attempts p _ h2 he hi
      cases hs : attemptsSucceed (d1.objects p).initOk
          (visits p d1.m_plugins (syncedNames d1)) with
      | true => left; rw [ia, hs]
      | false => right; rw [ta]; exact initAttempts_getLast p _ _ _ hk hs
  · intro he hi
    by_cases hpb : p = b
    · refine ⟨(if p = b then [Event.deinitializeCalled p] else []) ++ ev ++
        lifecycleCalls p calls2, ?_, ?_⟩
      · rw [hloop, hpre]; simp
      · simp [hpb]
    · have hi1 : (d1.objects p).isInitialized = true := ei (by rw [xobj hpb]; exact hi)
      refine ⟨(if p = b then [Event.deinitializeCalled p] else []) ++ ev ++
        [Event.deinitializeCalled p], ?_, by simp⟩
      rw [(sD (hen1.trans he) hi1).2, hpre]; simp
  · intro he hi
    have hxi : ((tornDown b d).objects p).isInitialized = false := by
      by_cases hpb : p = b
      · exact xold hpb
      · rw [xobj hpb]; exact hi
    rcases eu hxi with ⟨hi1, hok1⟩ | ⟨hm, hs⟩
    · obtain ⟨ta, ia⟩ := syncEach_attempts p _ h2 (hen1.trans he) hi1
      rw [hok1, xok] at ta ia
      obtain ⟨fm, fs⟩ := initAttempts_first p (d.objects p).initOk hk
      refine ⟨(if p = b then [Event.deinitializeCalled p] else []) ++ ev ++
        initAttempts p (d.objects p).initOk (visits p d1.m_plugins (syncedNames d1)),
        ?_, List.mem_append_right _ fm, fun ho => ?_⟩
      · rw [ta, hpre]; simp
      · rw [ia]; exact fs ho
    · rw [xok] at hm hs
      refine ⟨(if p = b then [Event.deinitializeCalled p] else []) ++ ev ++
        lifecycleCalls p calls2, ?_,
        List.mem_append_left _ (List.mem_append_right _ hm), fun ho => ?_⟩
      · rw [hloop, hpre]; simp
      · have hi1 := hs ho
        rw [(syncEach_inert p _ h2 (Or.inl (by rw [hi1, hen1, he]))).1]
        exact hi1
  · intro hpb ht
    obtain ⟨ev0, o1⟩ := en (by rw [xobj hpb]; exact ht)
    have hobj : d1.objects p = d.objects p := o1.trans (xobj hpb)
    have htr : lifecycleCalls p d1.trace = lifecycleCalls p d.trace := by
      rw [hpre, ev0]; simp [hpb]
    have hvisits : visits p d1.m_plugins (syncedNames d1) =
        visits p d.m_plugins (syncedNames d) := by rw [hf.2.2.1, hnames]
    refine ⟨fun he => ?_, fun he hi => ?_, fun he hi => ?_⟩
    · cases hi : (d.objects p).isInitialized with
      | true =>
        rw [(sD (by rw [hobj]; exact he) (by rw [hobj]; exact hi)).2, htr]
        simp
      | false =>
        rw [(syncEach_inert p _ h2 (Or.inl (by rw [hobj, hi, he]))).2, htr]
        simp
    · rw [(syncEach_inert p _ h2 (Or.inl (by rw [hobj, hi, he]))).2, htr]
    · obtain ⟨ta, ia⟩ := syncEach_attempts p _ h2 (by rw [hobj]; exact he)
        (by rw [hobj]; exact hi)
      rw [hobj, hvisits, htr] at ta
      rw [hobj, hvisits] at ia
      exact ⟨ta, ia⟩

/-- Witness of C3 (amended): the frontend "Pushover" is initialized and
disabled; `syncSettings` returns and it is not initialized afterwards. -/
theorem syncSettings_syncs_plugins_witness :
    ∃ d', syncSettings (withFrontend (frontendObject "Pushover" true false fun _ => true)) =
        some d' ∧ (d'.objects 1).isInitialized = false := by
  obtain ⟨d', h2, hall⟩ := syncSettings_syncs_plugins
    (withFrontend (frontendObject "Pushover" true false fun _ => true)) 0 (by decide)
    (by decide)
  obtain ⟨p, hp, _, hB, _⟩ := hall "Pushover" (by decide)
  have hp1 : (withFrontend (frontendObject "Pushover" true false fun _ => true)).m_plugins.lookup
      "Pushover" = some 1 := by decide
  rw [hp1] at hp
  cases hp
  exact ⟨d', h2, hB (by decide)⟩

/-! ## The primary backend can be lost -/

/-- C9 fails on the code: "Snore" is selected at start-up, then `syncSettings`
tears it down, its `initialize()` fails on both attempts to select it again,
and `syncSettings` returns with a null primary backend; the next
`syncSettings` and `primaryBackendCanUpdateNotification` dereference it. -/
theorem primary_backend_lost_by_syncSettings :
    (initPrimaryNotificationBackend TargetOS.linux snoreInitializesOnce).1 = true ∧
    (initPrimaryNotificationBackend TargetOS.linux snoreInitializesOnce).2.m_notificationBackend =
      some 0 ∧
    (syncSettings (initPrimaryNotificationBackend TargetOS.linux snoreInitializesOnce).2).map
      (fun d => d.m_notificationBackend) = some none ∧
    ((syncSettings (initPrimaryNotificationBackend TargetOS.linux snoreInitializesOnce).2).bind
      syncSettings).isNone = true ∧
    (syncSettings (initPrimaryNotificationBackend TargetOS.linux snoreInitializesOnce).2).bind
      primaryBackendCanUpdateNotification = none := by
  decide

/-! ## Forwarding notification events -/

/-- C5: `notificationActionInvoked` leaves the core as it is and makes these
calls: first the `actionInvoked` signal with the notification, exactly once;
then, exactly when the notification has a source, `actionInvoked` of that
source with the same notification, exactly once; and nothing else. -/
theorem notificationActionInvoked_relays (n : Notification) (d : SnoreCorePrivate) :
    ∃ calls, notificationActionInvoked n d = { d with trace := d.trace ++ calls } ∧
      calls.head? = some (Event.actionInvokedSignal n) ∧
      calls.count (Event.actionInvokedSignal n) = 1 ∧
      (∀ source, calls.count (Event.sourceActionInvoked source n) =
        if n.source = some source then 1 else 0) ∧
      (∀ e ∈ calls, e = Event.actionInvokedSignal n ∨
        ∃ source, n.source = some source ∧ e = Event.sourceActionInvoked source n) := by
  cases hs : n.source with
  | none =>
    refine ⟨[Event.actionInvokedSignal n], ?_, rfl, by simp, ?_, ?_⟩
    · simp [notificationActionInvoked, hs, record]
    · intro source; simp
    · intro e he; simpa using he
  | some src =>
    refine ⟨[Event.actionInvokedSignal n, Event.sourceActionInvoked src n], ?_, rfl,
      by simp, ?_, ?_⟩
    · simp [notificationActionInvoked, hs, record]
    · intro source
      by_cases h : src = source
      · simp [h]
      · have h2 : ¬ source = src := fun e => h e.symm
        simp [h, h2, List.count_cons]
    · intro e he
      simp at he
      rcases he with he | he
      · exact Or.inl he
      · exact Or.inr ⟨src, rfl, he⟩

/-- C6: `slotNotificationClosed` leaves the core as it is and makes these
calls: first the `notificationClosed` signal with the notification, exactly
once; then, exactly when the notification has a source, `notificationClosed`
of that source with the same notification, exactly once; and nothing else. -/
theorem slotNotificationClosed_relays (n : Notification) (d : SnoreCorePrivate) :
    ∃ calls, slotNotificationClosed n d = { d with trace := d.trace ++ calls } ∧
      calls.head? = some (Event.notificationClosedSignal n) ∧
      calls.count (Event.notificationClosedSignal n) = 1 ∧
      (∀ source, calls.count (Event.sourceNotificationClosed source n) =
        if n.source = some source then 1 else 0) ∧
      (∀ e ∈ calls, e = Event.notificationClosedSignal n ∨
        ∃ source, n.source = some source ∧ e = Event.sourceNotificationClosed source n) := by
  cases hs : n.source with
  | none =>
    refine ⟨[Event.notificationClosedSignal n], ?_, rfl, by simp, ?_, ?_⟩
    · simp [slotNotificationClosed, hs, record]
    · intro source; simp
    · intro e he; simpa using he
  | some src =>
    refine ⟨[Event.notificationClosedSignal n, Event.sourceNotificationClosed src n], ?_, rfl,
      by simp, ?_, ?_⟩
    · simp [slotNotificationClosed, hs, record]
    · intro source
      by_cases h : src = source
      · simp [h]
      · have h2 : ¬ source = src := fun e => h e.symm
        simp [h, h2, List.count_cons]
    · intro e he
      simp at he
      rcases he with he | he
      · exact Or.inl he
      · exact Or.inr ⟨src, rfl, he⟩

/-! ## Shutdown -/

/-- The calls of `slotAboutToQuit` depend on the objects only through
`isLoaded`. -/
theorem quitCalls_congr (o1 o2 : Nat → PluginContainer)
    (h : ∀ p, (o1 p).isLoaded = (o2 p).isLoaded) (l : List Nat) :
    quitCalls o1 l = quitCalls o2 l := by
  induction l with
  | nil => rfl
  | cons p rest ih => simp [quitCalls, ih, h p]

/-- How often a plugin is deinitialized and its container asked for the plugin
by the calls of `slotAboutToQuit`. -/
theorem quitCalls_count (o : Nat → PluginContainer) (l : List Nat) (p : Nat) :
    (quitCalls o l).count (Event.deinitializeCalled p) =
        (if (o p).isLoaded then l.count p else 0) ∧
    (quitCalls o l).count (Event.loadCalled p) =
        (if (o p).isLoaded then l.count p else 0) := by
  induction l with
  | nil => simp [quitCalls]
  | cons q rest ih =>
    by_cases hq : q = p
    · subst hq
      by_cases hl : (o q).isLoaded = true
      · simp [quitCalls, hl, ih, List.count_cons]
      · simp [quitCalls, hl, ih]
    · have hq2 : ¬ p = q := fun e => hq e.symm
      by_cases hl : (o q).isLoaded = true
      · simp [quitCalls, hl, ih, List.count_cons, hq, hq2]
      · simp [quitCalls, hl, ih, List.count_cons, hq, hq2]

/-- The loop of `slotAboutToQuit` over any list of containers. -/
theorem foldl_quitStep (l : List Nat) : ∀ d : SnoreCorePrivate,
    (∀ p, ((l.foldl quitStep d).objects p).isLoaded = (d.objects p).isLoaded) ∧
    (∀ p, (d.objects p).isLoaded = false → (l.foldl quitStep d).objects p = d.objects p) ∧
    (∀ p, (d.objects p).isInitialized = false →
      ((l.foldl quitStep d).objects p).isInitialized = false) ∧
    (∀ p ∈ l, (d.objects p).isLoaded = true →
      ((l.foldl quitStep d).objects p).isInitialized = false) ∧
    (l.foldl quitStep d).trace = d.trace ++ quitCalls d.objects l := by
  induction l with
  | nil => intro d; simp [quitCalls]
  | cons q rest ih =>
    intro d
    obtain ⟨h1, h2, h3, h4, h5⟩ := ih (quitStep d q)
    have hload : ∀ p, ((quitStep d q).objects p).isLoaded = (d.objects p).isLoaded := by
      intro p
      unfold quitStep
      by_cases hl : (d.objects q).isLoaded = true
      · by_cases hp : p = q
        · subst hp; simp [hl, deinitializePlugin, load]
        · simp [hl, deinitializePlugin, load, hp]
      · simp [hl]
    have hkeep : ∀ p, (d.objects p).isLoaded = false →
        (quitStep d q).objects p = d.objects p := by
      intro p hp
      unfold quitStep
      by_cases hl : (d.objects q).isLoaded = true
      · have hpq : p ≠ q := by
          intro e; subst e; simp [hl] at hp
        simp [hl, deinitializePlugin, load, hpq]
      · simp [hl]
    have hinit : ∀ p, (d.objects p).isInitialized = false →
        ((quitStep d q).objects p).isInitialized = false := by
      intro p hp
      unfold quitStep
      by_cases hl : (d.objects q).isLoaded = true
      · by_cases hpq : p = q
        · subst hpq; simp [hl, deinitializePlugin, load]
        · simp [hl, deinitializePlugin, load, hpq, hp]
      · simp [hl, hp]
    have hq : (d.objects q).isLoaded = true →
        ((quitStep d q).objects q).isInitialized = false := by
      intro hl
      simp [quitStep, hl, deinitializePlugin, load]
    have htrace : (quitStep d q).trace = d.trace ++
        (if (d.objects q).isLoaded then [Event.loadCalled q, Event.deinitializeCalled q]
          else []) := by
      unfold quitStep
      by_cases hl : (d.objects q).isLoaded = true
      · simp [hl, deinitializePlugin, load]
      · simp [hl]
    refine ⟨?_, ?_, ?_, ?_, ?_⟩
    · intro p; simp only [List.foldl_cons]; rw [h1 p, hload p]
    · intro p hp
      simp only [List.foldl_cons]
      rw [h2 p (by rw [hload p]; exact hp), hkeep p hp]
    · intro p hp
      simp only [List.foldl_cons]
      exact h3 p (hinit p hp)
    · intro p hp hl
      simp only [List.foldl_cons]
      rcases List.mem_cons.mp hp with e | hmem
      · subst e; exact h3 p (hq hl)
      · exact h4 p hmem (by rw [hload p]; exact hl)
    · simp only [List.foldl_cons]
      rw [h5, htrace, quitCalls_congr _ _ hload rest]
      simp [quitCalls]

/-- C10: `slotAboutToQuit` makes exactly these calls: for every cached
container that is loaded, one `load()` and one `deinitialize()` of its plugin
(once per cache entry), and none for a container that is not loaded, whose
object stays as it is; afterwards no loaded cached plugin is initialized. -/
theorem slotAboutToQuit_deinitializes_loaded (d : SnoreCorePrivate) :
    ∃ calls, (slotAboutToQuit d).trace = d.trace ++ calls ∧
      (∀ p, calls.count (Event.deinitializeCalled p) =
        if (d.objects p).isLoaded then d.pluginCache.count p else 0) ∧
      (∀ p, calls.count (Event.loadCalled p) =
        if (d.objects p).isLoaded then d.pluginCache.count p else 0) ∧
      (∀ p, (d.objects p).isLoaded = false →
        (slotAboutToQuit d).objects p = d.objects p) ∧
      (∀ p ∈ d.pluginCache, ((slotAboutToQuit d).objects p).isLoaded = true →
        ((slotAboutToQuit d).objects p).isInitialized = false) := by
  obtain ⟨h1, h2, _, h4, h5⟩ := foldl_quitStep d.pluginCache d
  refine ⟨quitCalls d.objects d.pluginCache, h5, ?_, ?_, h2, ?_⟩
  · intro p; exact (quitCalls_count d.objects d.pluginCache p).1
  · intro p; exact (quitCalls_count d.objects d.pluginCache p).2
  · intro p hp hl
    exact h4 p hp (by rw [← h1 p]; exact hl)

end Snore
